import Mathlib

/-!
# MPU6050 vibration monitor (src/main.cpp)

A shallow embedding of the Arduino sketch: the global variables become the
record `Stato`, every function of the sketch becomes a function on `Stato`,
and the values returned by the hardware (`mpu.getAcceleration`, `millis`) are
inputs of the cycle.

Numbers: the sketch computes in `float`/`double`.  The embedding is generic in
an ordered field `α` (exact arithmetic, no rounding); `sqrt` comes from the C
library and is a parameter of `loop`, instantiated with `Real.sqrt` where its
value matters.  `loop_arrotondato` is `loop` with the rounding of every `double`
operation and of every `float` store as two more parameters; `binary32` and
`binary64` are the IEEE 754 roundings.  `unsigned long` is a natural number
modulo `2 ^ 32`.

Time: `delay` only lets the clock advance, and the clock is an input, so `delay`
leaves no trace in the state.  Of `setup` only `calibraSensore` is embedded; the
serial and I2C bring-up does not touch the variables that `loop` reads.
-/

namespace MPU6050

/-! ## Data model -/

/-- The three raw `int16_t` readings written by `mpu.getAcceleration(&ax, &ay, &az)`. -/
structure Campione where
  ax : Int
  ay : Int
  az : Int
deriving DecidableEq

/-- The readings fit `int16_t`. -/
def Campione.int16 (c : Campione) : Prop :=
  (-32768 ≤ c.ax ∧ c.ax ≤ 32767) ∧ (-32768 ≤ c.ay ∧ c.ay ≤ 32767) ∧
    (-32768 ≤ c.az ∧ c.az ≤ 32767)

instance (c : Campione) : Decidable c.int16 := by
  unfold Campione.int16
  infer_instance

/-- One line written on `Serial` by the functions embedded here. -/
inductive Riga (α : Type) where
  /-- "Calibrazione in corso... Mantenere il sensore fermo!" -/
  | calibrazione_in_corso : Riga α
  /-- "Calibrazione completata!" -/
  | calibrazione_completata : Riga α
  /-- "Offset X: " + String(offset_x) -/
  | offset_X (v : α) : Riga α
  /-- "Offset Y: " + String(offset_y) -/
  | offset_Y (v : α) : Riga α
  /-- "Offset Z: " + String(offset_z) -/
  | offset_Z (v : α) : Riga α
  /-- "ALLARME! Vibrazione rilevata: " + String(vibrazione) + " g" -/
  | allarme (vibrazione : α) : Riga α
  /-- The line of `stampa_dati_sensore`: x, y, z, magnitude, vibration. -/
  | dati (x y z m v : α) : Riga α

/-- The global variables of the sketch (lines 17-25), the function-static
`ultimo_output` (line 112), the levels of the three output pins and the lines
written on `Serial` so far. -/
structure Stato (α : Type) where
  accelerazioneX : α
  accelerazioneY : α
  accelerazioneZ : α
  magnitudoAccelerazione : α
  soglia_vibrazione : α
  allarme_attivo : Bool
  tempo_ultimo_allarme : Nat
  offset_x : α
  offset_y : α
  offset_z : α
  ultimo_output : Nat
  pin_LED_ALLARME : Bool
  pin_BUZZER : Bool
  pin_LED_STATUS : Bool
  seriale : List (Riga α)

/-- What the hardware returns during one execution of `loop`: the sample read
by `mpu.getAcceleration` and the value of each `millis()` call, in program
order (line 155 inside `attiva_allarme`, line 106, line 113, line 116).  A call
that is not reached does not consume its value. -/
structure Ciclo where
  lettura : Campione
  millis_attiva : Nat
  millis_durata : Nat
  millis_output : Nat
  millis_ultimo : Nat
deriving DecidableEq

variable {α : Type} [LinearOrderedField α]

/-- The globals as initialised at lines 17-25 and 112; output pins low, nothing
written on `Serial`. -/
def stato_iniziale : Stato α :=
  { accelerazioneX := 0, accelerazioneY := 0, accelerazioneZ := 0,
    magnitudoAccelerazione := 0,
    soglia_vibrazione := 2,
    allarme_attivo := false,
    tempo_ultimo_allarme := 0,
    offset_x := 0, offset_y := 0, offset_z := 0,
    ultimo_output := 0,
    pin_LED_ALLARME := false, pin_BUZZER := false, pin_LED_STATUS := false,
    seriale := [] }

/-- Line 22: `const unsigned long DURATA_ALLARME = 3000`. -/
def DURATA_ALLARME : Nat := 3000

/-- Line 26: `const int CAMPIONI_CALIBRAZIONE = 100`. -/
def CAMPIONI_CALIBRAZIONE : Nat := 100

/-- The subtraction `a - b` of two `unsigned long` values: 32 bits, wrapping. -/
def sub_ulong (a b : Nat) : Nat :=
  (a % 2 ^ 32 + (2 ^ 32 - b % 2 ^ 32)) % 2 ^ 32

/-- `Serial.println` of one line. -/
def println (r : Riga α) (s : Stato α) : Stato α :=
  { s with seriale := s.seriale ++ [r] }

/-! ## calibraSensore (lines 123-149) -/

/-- Body of the calibration loop (lines 131-136) on the three running sums
`(sum_x, sum_y, sum_z)`; `letture i` is the sample read in iteration `i`. -/
def calibra_passo (letture : Nat → Campione) (somme : α × α × α) (i : Nat) : α × α × α :=
  (somme.1 + ((letture i).ax : α) / 16384,
   somme.2.1 + ((letture i).ay : α) / 16384,
   somme.2.2 + ((letture i).az : α) / 16384)

/-- The sums after the loop `for (int i = 0; i < n; i++)` (lines 127-139). -/
def calibra_somme (n : Nat) (letture : Nat → Campione) : α × α × α :=
  (List.range n).foldl (calibra_passo letture) (0, 0, 0)

/-- The function `calibraSensore` with the sample count as a parameter `n`. -/
def calibraSensoreCon (n : Nat) (letture : Nat → Campione) (s : Stato α) : Stato α :=
  let s := println Riga.calibrazione_in_corso s
  let somme : α × α × α := calibra_somme n letture
  let s := { s with offset_x := somme.1 / (n : α) }
  let s := { s with offset_y := somme.2.1 / (n : α) }
  let s := { s with offset_z := somme.2.2 / (n : α) - 1 }
  let s := println Riga.calibrazione_completata s
  let s := println (Riga.offset_X s.offset_x) s
  let s := println (Riga.offset_Y s.offset_y) s
  println (Riga.offset_Z s.offset_z) s

/-- The function `calibraSensore`: `CAMPIONI_CALIBRAZIONE` samples. -/
def calibraSensore (letture : Nat → Campione) (s : Stato α) : Stato α :=
  calibraSensoreCon CAMPIONI_CALIBRAZIONE letture s

/-! ## The alarm (lines 152-175) and the report (lines 178-191) -/

/-- Body of the beep loop (lines 162-165): buzzer high, wait, buzzer low, wait. -/
def beep (s : Stato α) : Stato α :=
  let s := { s with pin_BUZZER := true }
  { s with pin_BUZZER := false }

/-- The function `attiva_allarme`; `millis` is the value read at line 155. -/
def attiva_allarme (millis : Nat) (s : Stato α) : Stato α :=
  let s := { s with allarme_attivo := true }
  let s := { s with tempo_ultimo_allarme := millis }
  let s := { s with pin_LED_ALLARME := true }
  (List.range 3).foldl (fun s _ => beep s) s

/-- The function `disattiva_allarme`. -/
def disattiva_allarme (s : Stato α) : Stato α :=
  let s := { s with allarme_attivo := false }
  let s := { s with pin_LED_ALLARME := false }
  { s with pin_BUZZER := false }

/-- The function `stampa_dati_sensore`: one line with the five values. -/
def stampa_dati_sensore (s : Stato α) : Stato α :=
  println (Riga.dati s.accelerazioneX s.accelerazioneY s.accelerazioneZ
    s.magnitudoAccelerazione |s.magnitudoAccelerazione - 1|) s

/-! ## loop (lines 76-120) -/

/-- Lines 79-90 of `loop`: conversion to g, offsets removed, magnitude
(`pow(x, 2)` is `x ^ 2`, `sqrt` is the parameter). -/
def leggi (sqrt : α → α) (c : Ciclo) (s : Stato α) : Stato α :=
  let s := { s with accelerazioneX := (c.lettura.ax : α) / 16384 - s.offset_x }
  let s := { s with accelerazioneY := (c.lettura.ay : α) / 16384 - s.offset_y }
  let s := { s with accelerazioneZ := (c.lettura.az : α) / 16384 - s.offset_z }
  let m : α := sqrt (s.accelerazioneX ^ 2 + s.accelerazioneY ^ 2 + s.accelerazioneZ ^ 2)
  { s with magnitudoAccelerazione := m }

/-- The value of the local `vibrazione = abs(magnitudoAccelerazione - 1.0)`
(line 93) in a cycle `c` that starts in state `s`; `abs` is the absolute value. -/
def vibrazione (sqrt : α → α) (c : Ciclo) (s : Stato α) : α :=
  |(leggi sqrt c s).magnitudoAccelerazione - 1|

/-- Lines 96-103 of `loop`: the threshold test, with the local `v`. -/
def controlla_soglia (c : Ciclo) (v : α) (s : Stato α) : Stato α :=
  if v > s.soglia_vibrazione then
    if !s.allarme_attivo then
      println (Riga.allarme v) (attiva_allarme c.millis_attiva s)
    else s
  else s

/-- Lines 106-109 of `loop`: the alarm duration. -/
def gestisci_durata (c : Ciclo) (s : Stato α) : Stato α :=
  if s.allarme_attivo && decide (sub_ulong c.millis_durata s.tempo_ultimo_allarme > DURATA_ALLARME) then
    disattiva_allarme s
  else s

/-- Lines 112-117 of `loop`: the periodic report. -/
def gestisci_output (c : Ciclo) (s : Stato α) : Stato α :=
  if sub_ulong c.millis_output s.ultimo_output > 500 then
    { stampa_dati_sensore s with ultimo_output := c.millis_ultimo }
  else s

/-- The function `loop`: one monitoring cycle. -/
def loop (sqrt : α → α) (s : Stato α) (c : Ciclo) : Stato α :=
  let s := leggi sqrt c s
  let vibrazione : α := |s.magnitudoAccelerazione - 1|
  let s := controlla_soglia c vibrazione s
  let s := gestisci_durata c s
  gestisci_output c s

/-- The cycles of `cicli` executed one after the other, as the Arduino runtime
calls `loop` again and again. -/
def esegui (sqrt : α → α) (s : Stato α) (cicli : List Ciclo) : Stato α :=
  cicli.foldl (loop sqrt) s

/-! ## Observations on the serial output -/

/-- Whether a line is an "ALLARME!" line. -/
def Riga.segnala_allarme : Riga α → Bool
  | Riga.allarme _ => true
  | _ => false

/-- Whether a line is a line of `stampa_dati_sensore`. -/
def Riga.riporta_dati : Riga α → Bool
  | Riga.dati _ _ _ _ _ => true
  | _ => false

/-- Number of activation events reported so far. -/
def conta_allarmi (s : Stato α) : Nat := s.seriale.countP Riga.segnala_allarme

/-- Number of reports of `stampa_dati_sensore` emitted so far. -/
def conta_dati (s : Stato α) : Nat := s.seriale.countP Riga.riporta_dati

/-! ## Concrete inputs used in the examples -/

/-- The state right after an activation at clock value `t0`, other globals as
initialised. -/
def stato_attivo_da (t0 : Nat) : Stato α :=
  { (stato_iniziale : Stato α) with
    allarme_attivo := true, tempo_ultimo_allarme := t0, pin_LED_ALLARME := true }

/-- A cycle that reads the sample `l` and whose `millis()` calls all return `t`. -/
def ciclo_istantaneo (l : Campione) (t : Nat) : Ciclo :=
  { lettura := l, millis_attiva := t, millis_durata := t, millis_output := t,
    millis_ultimo := t }

/-- The largest positive reading on the three axes (about 3.46 g in all). -/
def scossa : Campione := ⟨32767, 32767, 32767⟩

/-- The sensor at rest, flat: 1 g on the z axis. -/
def fermo : Campione := ⟨0, 0, 16384⟩

/-- The four clock values of a cycle in program order. -/
def Ciclo.orologio (c : Ciclo) : List Nat :=
  [c.millis_attiva, c.millis_durata, c.millis_output, c.millis_ultimo]

/-- Forty-five consecutive cycles of strong vibration with the timing of the
sketch: the first cycle activates at 0 ms and spends 900 ms in the beep
sequence, the next cycles follow every 50 ms from 950 ms to 3050 ms, the last
one starts at 3100 ms. -/
def cicli_scossa_continua : List Ciclo :=
  { lettura := scossa, millis_attiva := 0, millis_durata := 900, millis_output := 900,
    millis_ultimo := 900 } ::
  ((List.range 43).map (fun k => ciclo_istantaneo scossa (950 + 50 * k)) ++
    [{ lettura := scossa, millis_attiva := 3100, millis_durata := 4000,
       millis_output := 4000, millis_ultimo := 4000 }])

/-- The globals after a calibration that left the offsets `(0, 0, oz)`. -/
def stato_con_offset_z (oz : α) : Stato α :=
  { (stato_iniziale : Stato α) with offset_z := oz }

/-- A state with the alarm off and both alarm outputs low, other fields as in `s`. -/
def Stato.a_riposo (s : Stato α) : Stato α :=
  { s with allarme_attivo := false, pin_LED_ALLARME := false, pin_BUZZER := false }

/-- The sensor at rest upside down: -1 g on the z axis. -/
def fermo_capovolto : Campione := ⟨0, 0, -16384⟩

/-- A cycle that reads 1.5 g on the z axis; its activation reads the clock at
0 ms, the later `millis()` calls (after the 900 ms beep sequence) at 900 ms. -/
def ciclo_urto : Ciclo :=
  { lettura := ⟨0, 0, 24576⟩, millis_attiva := 0, millis_durata := 900,
    millis_output := 900, millis_ultimo := 900 }

/-- The first `n` cycles of a run whose first cycle happens at clock value `t0`
and whose cycle number `k` happens `k * p` ms later: every `millis()` call of
that cycle returns `t0 + k * p` (modulo `2 ^ 32`, as the counter does);
`letture k` is the sample it reads. -/
def cicli_periodici (letture : Nat → Campione) (t0 p n : Nat) : List Ciclo :=
  (List.range n).map (fun k => ciclo_istantaneo (letture k) ((t0 + k * p) % 2 ^ 32))

/-! ## Rounding of `float` and `double` values -/

/-- The integer nearest to `y`, the even one when `y` is half-way between two. -/
def intero_vicino [FloorRing α] (y : α) : Int :=
  if y - (⌊y⌋ : α) < 1 / 2 then ⌊y⌋
  else if 1 / 2 < y - (⌊y⌋ : α) then ⌊y⌋ + 1
  else if ⌊y⌋ % 2 = 0 then ⌊y⌋
  else ⌊y⌋ + 1

/-- Rounding to nearest, ties to even, in the binary floating-point format with
`p` significand bits and least normal exponent `emin`: the result is the
multiple of `2 ^ (e - (p - 1))` nearest to `x`, where `2 ^ e ≤ |x| < 2 ^ (e + 1)`
(`e` not below `emin`).  Overflow to infinity is left out. -/
def arrotonda [FloorRing α] (p emin : Int) (x : α) : α :=
  if x = 0 then 0
  else
    (intero_vicino (x / (2 : α) ^ (max (Int.log 2 |x|) emin - (p - 1))) : α) *
      (2 : α) ^ (max (Int.log 2 |x|) emin - (p - 1))

/-- Rounding to IEEE 754 binary32: 24 significand bits. -/
def binary32 [FloorRing α] (x : α) : α := arrotonda 24 (-126) x

/-- Rounding to IEEE 754 binary64: 53 significand bits. -/
def binary64 [FloorRing α] (x : α) : α := arrotonda 53 (-1022) x

/-- The function `stampa_dati_sensore` with the `double` subtraction of line 189
rounded by `a_double`. -/
def stampa_dati_sensore_arrotondato (a_double : α → α) (s : Stato α) : Stato α :=
  println (Riga.dati s.accelerazioneX s.accelerazioneY s.accelerazioneZ
    s.magnitudoAccelerazione |a_double (s.magnitudoAccelerazione - 1)|) s

/-- Lines 79-90 of `loop` with the roundings of the C evaluation made explicit:
`a_double` rounds the result of each operation on `double` values (the division
by `16384.0`, the subtraction of the offset, `pow`, the two sums, `sqrt`) and
`a_float` rounds each value stored in a `float` variable (line 17, line 18). -/
def leggi_arrotondato (sqrt a_double a_float : α → α) (c : Ciclo) (s : Stato α) : Stato α :=
  let x : α := a_float (a_double (a_double ((c.lettura.ax : α) / 16384) - s.offset_x))
  let s := { s with accelerazioneX := x }
  let y : α := a_float (a_double (a_double ((c.lettura.ay : α) / 16384) - s.offset_y))
  let s := { s with accelerazioneY := y }
  let z : α := a_float (a_double (a_double ((c.lettura.az : α) / 16384) - s.offset_z))
  let s := { s with accelerazioneZ := z }
  let m : α := a_double (sqrt (a_double (a_double (a_double (s.accelerazioneX ^ 2) +
    a_double (s.accelerazioneY ^ 2)) + a_double (s.accelerazioneZ ^ 2))))
  let m : α := a_float m
  { s with magnitudoAccelerazione := m }

/-- The value of the `float` local `vibrazione` (line 93) with the roundings
made explicit, in a cycle `c` that starts in state `s`. -/
def vibrazione_arrotondata (sqrt a_double a_float : α → α) (c : Ciclo) (s : Stato α) : α :=
  a_float |a_double ((leggi_arrotondato sqrt a_double a_float c s).magnitudoAccelerazione - 1)|

/-- Lines 112-117 of `loop` with the rounded report line. -/
def gestisci_output_arrotondato (a_double : α → α) (c : Ciclo) (s : Stato α) : Stato α :=
  if sub_ulong c.millis_output s.ultimo_output > 500 then
    { stampa_dati_sensore_arrotondato a_double s with ultimo_output := c.millis_ultimo }
  else s

/-- The function `loop` with the roundings of its `float` and `double` values
made explicit; with `a_double` and `a_float` the identity it is `loop`. -/
def loop_arrotondato (sqrt a_double a_float : α → α) (s : Stato α) (c : Ciclo) : Stato α :=
  let s := leggi_arrotondato sqrt a_double a_float c s
  let vibrazione : α := a_float |a_double (s.magnitudoAccelerazione - 1)|
  let s := controlla_soglia c vibrazione s
  let s := gestisci_durata c s
  gestisci_output_arrotondato a_double c s

/-- A sample just above 3 g: `32768^2 + 32767^2 + 16386^2 = 9 * 16384^2 + 5`. -/
def campione_al_limite : Campione := ⟨-32768, -32767, 16386⟩

/-! ## One cycle, field by field -/

theorem attiva_allarme_eq {β : Type} (t : Nat) (s : Stato β) :
    attiva_allarme t s =
      { s with allarme_attivo := true, tempo_ultimo_allarme := t,
               pin_LED_ALLARME := true, pin_BUZZER := false } := rfl

theorem loop_offset (sqrt : α → α) (s : Stato α) (c : Ciclo) :
    (loop sqrt s c).offset_x = s.offset_x ∧ (loop sqrt s c).offset_y = s.offset_y ∧
      (loop sqrt s c).offset_z = s.offset_z ∧
      (loop sqrt s c).soglia_vibrazione = s.soglia_vibrazione := by
  simp only [loop, leggi, controlla_soglia, gestisci_durata, gestisci_output,
    attiva_allarme_eq, disattiva_allarme, stampa_dati_sensore, println]
  split_ifs <;> simp_all

theorem vibrazione_loop (sqrt : α → α) (s : Stato α) (c d : Ciclo) :
    vibrazione sqrt d (loop sqrt s c) = vibrazione sqrt d s := by
  obtain ⟨hx, hy, hz, -⟩ := loop_offset sqrt s c
  simp only [vibrazione, leggi, hx, hy, hz]

/-- A cycle that starts with the alarm on, its duration check within the window. -/
theorem loop_attivo_entro (sqrt : α → α) (s : Stato α) (c : Ciclo)
    (ha : s.allarme_attivo = true)
    (hd : sub_ulong c.millis_durata s.tempo_ultimo_allarme ≤ DURATA_ALLARME) :
    (loop sqrt s c).allarme_attivo = true ∧
      (loop sqrt s c).tempo_ultimo_allarme = s.tempo_ultimo_allarme ∧
      conta_allarmi (loop sqrt s c) = conta_allarmi s := by
  have hd2 : ¬ (sub_ulong c.millis_durata s.tempo_ultimo_allarme > DURATA_ALLARME) := by omega
  simp only [loop, leggi, controlla_soglia, gestisci_durata, gestisci_output,
    attiva_allarme_eq, disattiva_allarme, stampa_dati_sensore, println, conta_allarmi]
  split_ifs <;> simp_all [Riga.segnala_allarme] <;> omega

/-- A cycle that starts with the alarm on, its duration check past the window. -/
theorem loop_attivo_oltre (sqrt : α → α) (s : Stato α) (c : Ciclo)
    (ha : s.allarme_attivo = true)
    (hd : sub_ulong c.millis_durata s.tempo_ultimo_allarme > DURATA_ALLARME) :
    (loop sqrt s c).allarme_attivo = false ∧
      (loop sqrt s c).tempo_ultimo_allarme = s.tempo_ultimo_allarme ∧
      conta_allarmi (loop sqrt s c) = conta_allarmi s := by
  simp only [loop, leggi, controlla_soglia, gestisci_durata, gestisci_output,
    attiva_allarme_eq, disattiva_allarme, stampa_dati_sensore, println, conta_allarmi]
  split_ifs <;> simp_all [Riga.segnala_allarme]

/-- A cycle that starts with the alarm off and does not exceed the threshold. -/
theorem loop_spento_quieto (sqrt : α → α) (s : Stato α) (c : Ciclo)
    (ha : s.allarme_attivo = false)
    (hv : ¬ (vibrazione sqrt c s > s.soglia_vibrazione)) :
    (loop sqrt s c).allarme_attivo = false ∧
      (loop sqrt s c).tempo_ultimo_allarme = s.tempo_ultimo_allarme ∧
      conta_allarmi (loop sqrt s c) = conta_allarmi s := by
  simp only [vibrazione, leggi] at hv
  simp only [loop, leggi, controlla_soglia, gestisci_durata, gestisci_output,
    attiva_allarme_eq, disattiva_allarme, stampa_dati_sensore, println, conta_allarmi]
  split_ifs <;> simp_all [Riga.segnala_allarme]

/-- A cycle that starts with the alarm off and exceeds the threshold. -/
theorem loop_spento_scossa (sqrt : α → α) (s : Stato α) (c : Ciclo)
    (ha : s.allarme_attivo = false)
    (hv : vibrazione sqrt c s > s.soglia_vibrazione) :
    ((loop sqrt s c).allarme_attivo = true ↔
        sub_ulong c.millis_durata c.millis_attiva ≤ DURATA_ALLARME) ∧
      (loop sqrt s c).tempo_ultimo_allarme = c.millis_attiva ∧
      conta_allarmi (loop sqrt s c) = conta_allarmi s + 1 := by
  simp only [vibrazione, leggi] at hv
  simp only [loop, leggi, controlla_soglia, gestisci_durata, gestisci_output,
    attiva_allarme_eq, disattiva_allarme, stampa_dati_sensore, println, conta_allarmi]
  split_ifs <;> simp_all [Riga.segnala_allarme]

/-- The report part of a cycle. -/
theorem loop_output (sqrt : α → α) (s : Stato α) (c : Ciclo) :
    (loop sqrt s c).ultimo_output =
        (if sub_ulong c.millis_output s.ultimo_output > 500 then c.millis_ultimo
         else s.ultimo_output) ∧
      conta_dati (loop sqrt s c) =
        conta_dati s + (if sub_ulong c.millis_output s.ultimo_output > 500 then 1 else 0) := by
  simp only [loop, leggi, controlla_soglia, gestisci_durata, gestisci_output,
    attiva_allarme_eq, disattiva_allarme, stampa_dati_sensore, println, conta_dati]
  split_ifs <;> simp_all [Riga.riporta_dati]

/-- The alarm LED follows the alarm flag and the buzzer is low after a cycle. -/
theorem loop_pin (sqrt : α → α) (s : Stato α) (c : Ciclo)
    (h : s.pin_LED_ALLARME = s.allarme_attivo ∧ s.pin_BUZZER = false) :
    (loop sqrt s c).pin_LED_ALLARME = (loop sqrt s c).allarme_attivo ∧
      (loop sqrt s c).pin_BUZZER = false := by
  obtain ⟨h1, h2⟩ := h
  simp only [loop, leggi, controlla_soglia, gestisci_durata, gestisci_output,
    attiva_allarme_eq, disattiva_allarme, stampa_dati_sensore, println]
  split_ifs <;> simp_all

/-! ## Runs of several cycles -/

theorem esegui_nil (sqrt : α → α) (s : Stato α) : esegui sqrt s [] = s := rfl

theorem esegui_cons (sqrt : α → α) (s : Stato α) (c : Ciclo) (cicli : List Ciclo) :
    esegui sqrt s (c :: cicli) = esegui sqrt (loop sqrt s c) cicli := rfl

theorem esegui_append (sqrt : α → α) (s : Stato α) (xs ys : List Ciclo) :
    esegui sqrt s (xs ++ ys) = esegui sqrt (esegui sqrt s xs) ys := by
  simp [esegui, List.foldl_append]

theorem esegui_offset (sqrt : α → α) (cicli : List Ciclo) (s : Stato α) :
    (esegui sqrt s cicli).offset_x = s.offset_x ∧ (esegui sqrt s cicli).offset_y = s.offset_y ∧
      (esegui sqrt s cicli).offset_z = s.offset_z ∧
      (esegui sqrt s cicli).soglia_vibrazione = s.soglia_vibrazione := by
  induction cicli generalizing s with
  | nil => simp [esegui_nil]
  | cons c cs ih =>
    obtain ⟨h1, h2, h3, h4⟩ := ih (loop sqrt s c)
    obtain ⟨k1, k2, k3, k4⟩ := loop_offset sqrt s c
    rw [esegui_cons]
    exact ⟨h1.trans k1, h2.trans k2, h3.trans k3, h4.trans k4⟩

theorem vibrazione_esegui (sqrt : α → α) (cicli : List Ciclo) (s : Stato α) (d : Ciclo) :
    vibrazione sqrt d (esegui sqrt s cicli) = vibrazione sqrt d s := by
  obtain ⟨hx, hy, hz, -⟩ := esegui_offset sqrt cicli s
  simp only [vibrazione, leggi, hx, hy, hz]

/-- While every duration check stays within the window an active alarm stays
active, keeps its activation time and no activation is reported. -/
theorem esegui_attivo_entro (sqrt : α → α) (cicli : List Ciclo) (s : Stato α)
    (ha : s.allarme_attivo = true)
    (hd : ∀ c ∈ cicli, sub_ulong c.millis_durata s.tempo_ultimo_allarme ≤ DURATA_ALLARME) :
    (esegui sqrt s cicli).allarme_attivo = true ∧
      (esegui sqrt s cicli).tempo_ultimo_allarme = s.tempo_ultimo_allarme ∧
      conta_allarmi (esegui sqrt s cicli) = conta_allarmi s := by
  induction cicli generalizing s with
  | nil => simp [esegui_nil, ha]
  | cons c cs ih =>
    obtain ⟨k1, k2, k3⟩ := loop_attivo_entro sqrt s c ha (hd c (List.mem_cons_self c cs))
    have hd2 : ∀ x ∈ cs, sub_ulong x.millis_durata (loop sqrt s c).tempo_ultimo_allarme
        ≤ DURATA_ALLARME := by
      intro x hx
      rw [k2]
      exact hd x (List.mem_cons_of_mem c hx)
    obtain ⟨h1, h2, h3⟩ := ih (loop sqrt s c) k1 hd2
    rw [esegui_cons]
    exact ⟨h1, h2.trans k2, h3.trans k3⟩

/-- With the alarm off and no cycle above the threshold nothing is activated. -/
theorem esegui_spento_quieto (sqrt : α → α) (cicli : List Ciclo) (s : Stato α)
    (ha : s.allarme_attivo = false)
    (hv : ∀ c ∈ cicli, ¬ (vibrazione sqrt c s > s.soglia_vibrazione)) :
    (esegui sqrt s cicli).allarme_attivo = false ∧
      (esegui sqrt s cicli).tempo_ultimo_allarme = s.tempo_ultimo_allarme ∧
      conta_allarmi (esegui sqrt s cicli) = conta_allarmi s := by
  induction cicli generalizing s with
  | nil => simp [esegui_nil, ha]
  | cons c cs ih =>
    obtain ⟨k1, k2, k3⟩ := loop_spento_quieto sqrt s c ha (hv c (List.mem_cons_self c cs))
    have hv2 : ∀ x ∈ cs, ¬ (vibrazione sqrt x (loop sqrt s c) >
        (loop sqrt s c).soglia_vibrazione) := by
      intro x hx
      rw [vibrazione_loop, (loop_offset sqrt s c).2.2.2]
      exact hv x (List.mem_cons_of_mem c hx)
    obtain ⟨h1, h2, h3⟩ := ih (loop sqrt s c) k1 hv2
    rw [esegui_cons]
    exact ⟨h1, h2.trans k2, h3.trans k3⟩

/-- The wrapping difference of two clock values in order is the plain one. -/
theorem sub_ulong_of_le (a b : Nat) (hab : b ≤ a) (ha : a < 2 ^ 32) :
    sub_ulong a b = a - b := by
  unfold sub_ulong
  omega

/-- The wrapping difference recovers every elapsed time below `2 ^ 32`. -/
theorem sub_ulong_add (t0 d : Nat) (hd : d < 2 ^ 32) :
    sub_ulong ((t0 + d) % 2 ^ 32) t0 = d := by
  unfold sub_ulong
  omega

/-! ## The alarm timer -/

/-- C10: the alarm-duration timer is correct across wrap-around of the 32-bit
millisecond counter.  With the alarm activated at `t0` (any value, in particular\nany `t0 < 2^32`) and a true elapsed
time `d < 2^32`, the duration check of `loop` reads `(t0 + d) mod 2^32`, the
unsigned difference it computes is `d`, and the cycle switches the alarm off if
and only if `d > DURATA_ALLARME`. -/
theorem durata_allarme_wraparound (sqrt : α → α) (s : Stato α) (c : Ciclo) (t0 d : Nat)
    (hd : d < 2 ^ 32)
    (ha : s.allarme_attivo = true) (ht : s.tempo_ultimo_allarme = t0)
    (hc : c.millis_durata = (t0 + d) % 2 ^ 32) :
    sub_ulong c.millis_durata s.tempo_ultimo_allarme = d ∧
      ((loop sqrt s c).allarme_attivo = false ↔ d > DURATA_ALLARME) := by
  have hsub : sub_ulong c.millis_durata s.tempo_ultimo_allarme = d := by
    rw [hc, ht]
    exact sub_ulong_add t0 d hd
  refine ⟨hsub, ?_⟩
  by_cases hgt : d > DURATA_ALLARME
  · have h := (loop_attivo_oltre sqrt s c ha (by rw [hsub]; exact hgt)).1
    simp [h, hgt]
  · have h := (loop_attivo_entro sqrt s c ha (by rw [hsub]; omega)).1
    simp [h, hgt]

/-- C10 at an activation 1000 ms before the counter wraps and 3001 ms elapsed:
the check reads 2001 and the alarm is switched off. -/
theorem durata_allarme_wraparound_witness :
    (3001 < 2 ^ 32 ∧
      (stato_attivo_da 4294966296 : Stato ℝ).allarme_attivo = true ∧
      (stato_attivo_da 4294966296 : Stato ℝ).tempo_ultimo_allarme = 4294966296 ∧
      2001 = (4294966296 + 3001) % 2 ^ 32) ∧
    (sub_ulong 2001 4294966296 = 3001 ∧
      ((loop Real.sqrt (stato_attivo_da 4294966296)
          ⟨⟨0, 0, 16384⟩, 2001, 2001, 2001, 2001⟩).allarme_attivo = false ↔
        3001 > DURATA_ALLARME)) :=
  ⟨⟨by norm_num, rfl, rfl, by norm_num⟩,
    durata_allarme_wraparound Real.sqrt (stato_attivo_da 4294966296)
      ⟨⟨0, 0, 16384⟩, 2001, 2001, 2001, 2001⟩ 4294966296 3001
      (by norm_num) rfl rfl (by norm_num)⟩

/-- C2: once the alarm is active with activation time `t0`, along any later
cycles `pre ++ [c]` (any samples) whose duration checks read a non-decreasing
clock starting at `t0`: if the check of cycle `c` sees `now - t0 ≤ DURATA_ALLARME`
the alarm is still active after `c` and `tempo_ultimo_allarme` is still `t0`;
if `c` is the first cycle whose check sees `now - t0 > DURATA_ALLARME` the alarm
is off after `c`. -/
theorem allarme_dura_fino_a_scadenza (sqrt : α → α) (s : Stato α) (t0 : Nat)
    (pre : List Ciclo) (c : Ciclo)
    (ha : s.allarme_attivo = true) (ht : s.tempo_ultimo_allarme = t0)
    (hmono : List.Pairwise (fun a b => a ≤ b)
      (t0 :: (pre ++ [c]).map Ciclo.millis_durata))
    (hlt : ∀ x ∈ pre ++ [c], x.millis_durata < 2 ^ 32) :
    (sub_ulong c.millis_durata t0 ≤ DURATA_ALLARME →
        (esegui sqrt s (pre ++ [c])).allarme_attivo = true ∧
        (esegui sqrt s (pre ++ [c])).tempo_ultimo_allarme = t0) ∧
      (sub_ulong c.millis_durata t0 > DURATA_ALLARME →
        (∀ x ∈ pre, sub_ulong x.millis_durata t0 ≤ DURATA_ALLARME) →
        (esegui sqrt s (pre ++ [c])).allarme_attivo = false) := by
  simp only [List.map_append, List.map_cons, List.map_nil, List.pairwise_cons,
    List.pairwise_append, List.mem_append, List.mem_map, List.mem_singleton] at hmono
  obtain ⟨h0, -, -, hpc⟩ := hmono
  constructor
  · intro hc
    have hall : ∀ x ∈ pre ++ [c],
        sub_ulong x.millis_durata s.tempo_ultimo_allarme ≤ DURATA_ALLARME := by
      intro x hx
      rw [ht]
      rcases List.mem_append.1 hx with hx | hx
      · have h1 : t0 ≤ x.millis_durata := h0 _ (Or.inl ⟨x, hx, rfl⟩)
        have h2 : x.millis_durata ≤ c.millis_durata := hpc _ ⟨x, hx, rfl⟩ _ rfl
        have h3 : t0 ≤ c.millis_durata := h0 _ (Or.inr rfl)
        have h4 := hlt c (by simp)
        have h5 := hlt x (List.mem_append.2 (Or.inl hx))
        rw [sub_ulong_of_le _ _ h3 h4] at hc
        rw [sub_ulong_of_le _ _ h1 h5]
        omega
      · rw [List.mem_singleton.1 hx]
        exact hc
    obtain ⟨k1, k2, -⟩ := esegui_attivo_entro sqrt (pre ++ [c]) s ha hall
    exact ⟨k1, k2.trans ht⟩
  · intro hc hpre
    obtain ⟨k1, k2, -⟩ := esegui_attivo_entro sqrt pre s ha (by rw [ht]; exact hpre)
    rw [esegui_append, esegui_cons, esegui_nil]
    exact (loop_attivo_oltre sqrt _ c k1 (by rw [k2, ht]; exact hc)).1

/-- C2 at an activation at 1000 ms: cycles checked at 2000, 3000 and 4000 ms keep
the alarm on with its activation time; a check at 4001 ms switches it off. -/
theorem allarme_dura_fino_a_scadenza_witness :
    ((esegui Real.sqrt (stato_attivo_da 1000 : Stato ℝ)
        ([ciclo_istantaneo scossa 2000, ciclo_istantaneo fermo 3000] ++
          [ciclo_istantaneo scossa 4000])).allarme_attivo = true ∧
      (esegui Real.sqrt (stato_attivo_da 1000 : Stato ℝ)
        ([ciclo_istantaneo scossa 2000, ciclo_istantaneo fermo 3000] ++
          [ciclo_istantaneo scossa 4000])).tempo_ultimo_allarme = 1000) ∧
    (esegui Real.sqrt (stato_attivo_da 1000 : Stato ℝ)
        ([ciclo_istantaneo scossa 2000, ciclo_istantaneo fermo 3000] ++
          [ciclo_istantaneo scossa 4001])).allarme_attivo = false :=
  ⟨(allarme_dura_fino_a_scadenza Real.sqrt (stato_attivo_da 1000 : Stato ℝ) 1000
      [ciclo_istantaneo scossa 2000, ciclo_istantaneo fermo 3000]
      (ciclo_istantaneo scossa 4000) rfl rfl
      (by simp [ciclo_istantaneo])
      (by simp [ciclo_istantaneo])).1 (by simp [ciclo_istantaneo, sub_ulong, DURATA_ALLARME]),
   (allarme_dura_fino_a_scadenza Real.sqrt (stato_attivo_da 1000 : Stato ℝ) 1000
      [ciclo_istantaneo scossa 2000, ciclo_istantaneo fermo 3000]
      (ciclo_istantaneo scossa 4001) rfl rfl
      (by simp [ciclo_istantaneo])
      (by simp [ciclo_istantaneo])).2 (by simp [ciclo_istantaneo, sub_ulong, DURATA_ALLARME])
      (by simp [ciclo_istantaneo, sub_ulong, DURATA_ALLARME])⟩

/-! ## The threshold in exact real arithmetic -/

/-- For a non-negative `S`, `|sqrt S - 1| > 2` means `S > 9`. -/
theorem abs_sqrt_sub_one_gt_two (S : ℝ) :
    |Real.sqrt S - 1| > 2 ↔ S > 9 := by
  have h0 : 0 ≤ Real.sqrt S := Real.sqrt_nonneg S
  have h3 : (3 : ℝ) < Real.sqrt S ↔ (3 : ℝ) ^ 2 < S := Real.lt_sqrt (by norm_num)
  constructor
  · intro h
    rcases lt_abs.1 h with h | h
    · have : (3 : ℝ) < Real.sqrt S := by linarith
      have := h3.1 this
      linarith
    · linarith
  · intro h
    have : (3 : ℝ) < Real.sqrt S := h3.2 (by linarith)
    exact lt_abs.2 (Or.inl (by linarith))

/-- With zero offsets the vibration exceeds 2 g exactly when the squared raw
norm exceeds `9 * 16384 ^ 2`. -/
theorem vibrazione_gt_due_iff (s : Stato ℝ) (c : Ciclo)
    (hx : s.offset_x = 0) (hy : s.offset_y = 0) (hz : s.offset_z = 0) :
    vibrazione Real.sqrt c s > 2 ↔
      c.lettura.ax ^ 2 + c.lettura.ay ^ 2 + c.lettura.az ^ 2 > 9 * 16384 ^ 2 := by
  simp only [vibrazione, leggi, hx, hy, hz, sub_zero]
  rw [abs_sqrt_sub_one_gt_two]
  have hcast : ((c.lettura.ax : ℝ) / 16384) ^ 2 + ((c.lettura.ay : ℝ) / 16384) ^ 2 +
      ((c.lettura.az : ℝ) / 16384) ^ 2 =
      (((c.lettura.ax ^ 2 + c.lettura.ay ^ 2 + c.lettura.az ^ 2 : Int) : ℝ)) / 16384 ^ 2 := by
    push_cast
    ring
  rw [hcast, gt_iff_lt, lt_div_iff₀ (by norm_num)]
  constructor
  · intro h
    have : ((9 * 16384 ^ 2 : Int) : ℝ) <
        ((c.lettura.ax ^ 2 + c.lettura.ay ^ 2 + c.lettura.az ^ 2 : Int) : ℝ) := by
      push_cast
      push_cast at h
      linarith
    exact_mod_cast this
  · intro h
    have : ((9 * 16384 ^ 2 : Int) : ℝ) <
        ((c.lettura.ax ^ 2 + c.lettura.ay ^ 2 + c.lettura.az ^ 2 : Int) : ℝ) := by
      exact_mod_cast h
    push_cast at this
    push_cast
    linarith

/-- A reading on one axis alone is within 1 g of the 1 g baseline. -/
theorem un_asse_entro_un_g (a : Int) (h1 : -32768 ≤ a) (h2 : a ≤ 32767) :
    |Real.sqrt (((a : ℝ) / 16384) ^ 2) - 1| ≤ 1 := by
  rw [Real.sqrt_sq_eq_abs]
  have hlo : (-32768 : ℝ) ≤ (a : ℝ) := by exact_mod_cast h1
  have hhi : (a : ℝ) ≤ 32767 := by exact_mod_cast h2
  have habs : |(a : ℝ) / 16384| ≤ 2 := by
    rw [abs_le]
    constructor
    · rw [le_div_iff₀ (by norm_num)]
      linarith
    · rw [div_le_iff₀ (by norm_num)]
      linarith
  have hnn : 0 ≤ |(a : ℝ) / 16384| := abs_nonneg _
  rw [abs_le]
  constructor <;> linarith

/-- The threshold test of a cycle that starts with the alarm off turns it on
exactly when the vibration exceeds the threshold. -/
theorem controlla_soglia_attivo (sqrt : α → α) (s : Stato α) (c : Ciclo)
    (ha : s.allarme_attivo = false) :
    (controlla_soglia c (vibrazione sqrt c s) (leggi sqrt c s)).allarme_attivo = true ↔
      vibrazione sqrt c s > s.soglia_vibrazione := by
  simp only [controlla_soglia, leggi, attiva_allarme_eq, println, vibrazione]
  split_ifs <;> simp_all

/-- The sample `scossa` exceeds the 2 g threshold with zero offsets. -/
theorem vibrazione_scossa (s : Stato ℝ) (c : Ciclo)
    (hx : s.offset_x = 0) (hy : s.offset_y = 0) (hz : s.offset_z = 0)
    (hc : c.lettura = scossa) : vibrazione Real.sqrt c s > 2 := by
  rw [vibrazione_gt_due_iff s c hx hy hz, hc]
  simp only [scossa]
  norm_num

/-! ## Edge-triggered activation -/

/-- Starting with the alarm off, cycles that all exceed the threshold and whose
duration checks stay within the window of the first activation report one
activation. -/
theorem esegui_spento_scossa_entro (sqrt : α → α) (s : Stato α)
    (c0 : Ciclo) (resto : List Ciclo)
    (ha : s.allarme_attivo = false)
    (hv : vibrazione sqrt c0 s > s.soglia_vibrazione)
    (hd : ∀ c ∈ c0 :: resto, sub_ulong c.millis_durata c0.millis_attiva ≤ DURATA_ALLARME) :
    conta_allarmi (esegui sqrt s (c0 :: resto)) = conta_allarmi s + 1 ∧
      (esegui sqrt s (c0 :: resto)).allarme_attivo = true ∧
      (esegui sqrt s (c0 :: resto)).tempo_ultimo_allarme = c0.millis_attiva := by
  obtain ⟨k1, k2, k3⟩ := loop_spento_scossa sqrt s c0 ha hv
  have k1t : (loop sqrt s c0).allarme_attivo = true :=
    k1.2 (hd c0 (List.mem_cons_self c0 resto))
  have hd2 : ∀ c ∈ resto,
      sub_ulong c.millis_durata (loop sqrt s c0).tempo_ultimo_allarme ≤ DURATA_ALLARME := by
    intro c hc
    rw [k2]
    exact hd c (List.mem_cons_of_mem c0 hc)
  obtain ⟨h1, h2, h3⟩ := esegui_attivo_entro sqrt resto (loop sqrt s c0) k1t hd2
  rw [esegui_cons]
  exact ⟨h3.trans k3, h1, h2.trans k2⟩

/-- C1 (amended): starting with the alarm off, along `K = resto.length + 1`
consecutive cycles that all see a vibration above the threshold and whose
duration checks all stay within `DURATA_ALLARME` of the activation of the first
cycle, exactly one activation is reported, and the alarm is on at the end. -/
theorem una_attivazione_entro_la_durata (sqrt : α → α) (s : Stato α)
    (c0 : Ciclo) (resto : List Ciclo)
    (ha : s.allarme_attivo = false)
    (hv : ∀ c ∈ c0 :: resto, vibrazione sqrt c s > s.soglia_vibrazione)
    (hd : ∀ c ∈ c0 :: resto, sub_ulong c.millis_durata c0.millis_attiva ≤ DURATA_ALLARME) :
    conta_allarmi (esegui sqrt s (c0 :: resto)) = conta_allarmi s + 1 ∧
      (esegui sqrt s (c0 :: resto)).allarme_attivo = true := by
  obtain ⟨h1, h2, -⟩ := esegui_spento_scossa_entro sqrt s c0 resto ha
    (hv c0 (List.mem_cons_self c0 resto)) hd
  exact ⟨h1, h2⟩

/-- C1 on two cycles of strong vibration within the alarm window. -/
theorem una_attivazione_entro_la_durata_witness :
    (stato_iniziale : Stato ℝ).allarme_attivo = false ∧
    conta_allarmi (esegui Real.sqrt (stato_iniziale : Stato ℝ)
        ({ lettura := scossa, millis_attiva := 0, millis_durata := 900, millis_output := 900,
           millis_ultimo := 900 } :: [ciclo_istantaneo scossa 950])) =
      conta_allarmi (stato_iniziale : Stato ℝ) + 1 ∧
    (esegui Real.sqrt (stato_iniziale : Stato ℝ)
        ({ lettura := scossa, millis_attiva := 0, millis_durata := 900, millis_output := 900,
           millis_ultimo := 900 } :: [ciclo_istantaneo scossa 950])).allarme_attivo = true :=
  ⟨rfl, una_attivazione_entro_la_durata Real.sqrt (stato_iniziale : Stato ℝ)
    { lettura := scossa, millis_attiva := 0, millis_durata := 900, millis_output := 900,
      millis_ultimo := 900 } [ciclo_istantaneo scossa 950] rfl
    (by
      intro c hc
      have hl : c.lettura = scossa := by
        simp only [List.mem_cons, List.mem_singleton, List.not_mem_nil, or_false] at hc
        rcases hc with h | h <;> subst h <;> rfl
      exact vibrazione_scossa _ c rfl rfl rfl hl)
    (by
      intro c hc
      simp only [List.mem_cons, List.mem_singleton, List.not_mem_nil, or_false] at hc
      rcases hc with h | h <;> rw [h] <;> simp [ciclo_istantaneo, sub_ulong, DURATA_ALLARME])⟩

set_option maxRecDepth 100000 in
/-- The clock values of `cicli_scossa_continua` never decrease. -/
theorem orologio_scossa_continua :
    List.Pairwise (fun a b => a ≤ b) (cicli_scossa_continua.flatMap Ciclo.orologio) := by
  decide

/-- C1 (counterexample): forty-five consecutive cycles of strong vibration,
clock non-decreasing, alarm off at the start.  The alarm is activated in the
first cycle, expires in the cycle checked at 3050 ms and is activated again in
the next cycle: two activations, not one. -/
theorem due_attivazioni_con_scossa_continua :
    (stato_iniziale : Stato ℝ).allarme_attivo = false ∧
    cicli_scossa_continua.length = 45 ∧
    (∀ c ∈ cicli_scossa_continua,
      vibrazione Real.sqrt c (stato_iniziale : Stato ℝ) >
        (stato_iniziale : Stato ℝ).soglia_vibrazione) ∧
    List.Pairwise (fun a b => a ≤ b) (cicli_scossa_continua.flatMap Ciclo.orologio) ∧
    conta_allarmi (esegui Real.sqrt (stato_iniziale : Stato ℝ) cicli_scossa_continua) =
      conta_allarmi (stato_iniziale : Stato ℝ) + 2 := by
  have hlett : ∀ c ∈ cicli_scossa_continua, c.lettura = scossa := by decide
  have hsplit : cicli_scossa_continua =
      ({ lettura := scossa, millis_attiva := 0, millis_durata := 900, millis_output := 900,
         millis_ultimo := 900 } ::
        (List.range 42).map (fun k => ciclo_istantaneo scossa (950 + 50 * k))) ++
      [ciclo_istantaneo scossa 3050] ++
      [{ lettura := scossa, millis_attiva := 3100, millis_durata := 4000,
         millis_output := 4000, millis_ultimo := 4000 }] := by decide
  refine ⟨rfl, by decide, ?_, orologio_scossa_continua, ?_⟩
  · intro c hc
    exact vibrazione_scossa _ c rfl rfl rfl (hlett c hc)
  · rw [hsplit, esegui_append, esegui_append, esegui_cons, esegui_nil, esegui_cons, esegui_nil]
    obtain ⟨a1, a2, a3⟩ := esegui_spento_scossa_entro Real.sqrt (stato_iniziale : Stato ℝ)
      { lettura := scossa, millis_attiva := 0, millis_durata := 900, millis_output := 900,
        millis_ultimo := 900 }
      ((List.range 42).map (fun k => ciclo_istantaneo scossa (950 + 50 * k))) rfl
      (vibrazione_scossa _ _ rfl rfl rfl rfl) (by decide)
    obtain ⟨b1, -, b3⟩ := loop_attivo_oltre Real.sqrt _ (ciclo_istantaneo scossa 3050) a2
      (by rw [a3]; decide)
    have hoff := esegui_offset Real.sqrt
      ({ lettura := scossa, millis_attiva := 0, millis_durata := 900, millis_output := 900,
         millis_ultimo := 900 } ::
        (List.range 42).map (fun k => ciclo_istantaneo scossa (950 + 50 * k)))
      (stato_iniziale : Stato ℝ)
    have hoff2 := loop_offset Real.sqrt
      (esegui Real.sqrt (stato_iniziale : Stato ℝ)
        ({ lettura := scossa, millis_attiva := 0, millis_durata := 900, millis_output := 900,
           millis_ultimo := 900 } ::
          (List.range 42).map (fun k => ciclo_istantaneo scossa (950 + 50 * k))))
      (ciclo_istantaneo scossa 3050)
    obtain ⟨-, -, c3⟩ := loop_spento_scossa Real.sqrt _
      { lettura := scossa, millis_attiva := 3100, millis_durata := 4000,
        millis_output := 4000, millis_ultimo := 4000 } b1
      (by
        rw [hoff2.2.2.2, hoff.2.2.2]
        exact vibrazione_scossa _ _ (hoff2.1.trans hoff.1) (hoff2.2.1.trans hoff.2.1)
          (hoff2.2.2.1.trans hoff.2.2.1) rfl)
    rw [c3, b3, a1]

/-! ## The threshold test -/

/-- C3: in a cycle that starts with the alarm off, with `v` the vibration of the
cycle and `th` the threshold: the threshold test leaves the alarm on if and only
if `v > th`, and the cycle reports an activation if and only if `v > th`; when
`v > th` the activation time is the clock value read in `attiva_allarme` and the
alarm is still on at the end of the cycle unless its own duration check already
sees more than `DURATA_ALLARME`; when `v = th` nothing is activated; and after
an activation the alarm is off again after the first later cycle whose check
sees more than `DURATA_ALLARME` elapsed, with one activation in all. -/
theorem attivazione_sse_sopra_soglia (sqrt : α → α) (s : Stato α) (c : Ciclo)
    (ha : s.allarme_attivo = false) :
    ((controlla_soglia c (vibrazione sqrt c s) (leggi sqrt c s)).allarme_attivo = true ↔
        vibrazione sqrt c s > s.soglia_vibrazione) ∧
      (conta_allarmi (loop sqrt s c) = conta_allarmi s + 1 ↔
        vibrazione sqrt c s > s.soglia_vibrazione) ∧
      (vibrazione sqrt c s > s.soglia_vibrazione →
        (controlla_soglia c (vibrazione sqrt c s) (leggi sqrt c s)).tempo_ultimo_allarme =
          c.millis_attiva ∧
        (loop sqrt s c).tempo_ultimo_allarme = c.millis_attiva ∧
        ((loop sqrt s c).allarme_attivo = true ↔
          sub_ulong c.millis_durata c.millis_attiva ≤ DURATA_ALLARME)) ∧
      (vibrazione sqrt c s = s.soglia_vibrazione →
        (loop sqrt s c).allarme_attivo = false ∧
        (loop sqrt s c).tempo_ultimo_allarme = s.tempo_ultimo_allarme ∧
        conta_allarmi (loop sqrt s c) = conta_allarmi s) ∧
      (∀ (pre : List Ciclo) (c2 : Ciclo),
        vibrazione sqrt c s > s.soglia_vibrazione →
        (∀ x ∈ c :: pre, sub_ulong x.millis_durata c.millis_attiva ≤ DURATA_ALLARME) →
        sub_ulong c2.millis_durata c.millis_attiva > DURATA_ALLARME →
        (esegui sqrt s (c :: pre)).allarme_attivo = true ∧
        (esegui sqrt s (c :: pre ++ [c2])).allarme_attivo = false ∧
        conta_allarmi (esegui sqrt s (c :: pre ++ [c2])) = conta_allarmi s + 1) := by
  refine ⟨?_, ?_, ?_, ?_, ?_⟩
  · simp only [controlla_soglia, leggi, attiva_allarme_eq, println, vibrazione]
    split_ifs <;> simp_all
  · by_cases hv : vibrazione sqrt c s > s.soglia_vibrazione
    · simp [(loop_spento_scossa sqrt s c ha hv).2.2, hv]
    · simp only [(loop_spento_quieto sqrt s c ha hv).2.2, hv, iff_false]
      omega
  · intro hv
    obtain ⟨k1, k2, -⟩ := loop_spento_scossa sqrt s c ha hv
    refine ⟨?_, k2, k1⟩
    simp only [controlla_soglia, leggi, attiva_allarme_eq, println, vibrazione]
    simp only [vibrazione, leggi] at hv
    split_ifs <;> simp_all
  · intro hv
    exact loop_spento_quieto sqrt s c ha (by rw [hv]; exact lt_irrefl _)
  · intro pre c2 hv hd hd2
    obtain ⟨a1, a2, a3⟩ := esegui_spento_scossa_entro sqrt s c pre ha hv hd
    obtain ⟨b1, -, b3⟩ := loop_attivo_oltre sqrt _ c2 a2 (by rw [a3]; exact hd2)
    have happ : esegui sqrt s (c :: pre ++ [c2]) =
        loop sqrt (esegui sqrt s (c :: pre)) c2 := by
      rw [esegui_append]
      rfl
    rw [happ]
    exact ⟨a2, b1, b3.trans a1⟩

/-- The sample `(0, 0, 24576)` with offsets `(0, 0, -2)` has magnitude 3.5 g,
vibration 2.5 g. -/
theorem vibrazione_due_e_mezzo (c : Ciclo) (hc : c.lettura = ⟨0, 0, 24576⟩) :
    vibrazione Real.sqrt c (stato_con_offset_z (-2) : Stato ℝ) = 5 / 2 := by
  have h : Real.sqrt ((7 / 2 : ℝ) ^ 2) = 7 / 2 := Real.sqrt_sq (by norm_num)
  have e : ∀ x : ℝ, x = (7 / 2) ^ 2 → |Real.sqrt x - 1| = 5 / 2 := by
    intro x hx
    rw [hx, h]
    norm_num
  simp only [vibrazione, leggi, stato_con_offset_z, stato_iniziale, hc]
  apply e
  norm_num

/-- C3 on the scenario of the specification: threshold 2.0, a cycle with
magnitude 3.5 g (vibration 2.5 g) activates the alarm; with the sensor at rest
afterwards the alarm is still on at 3000 ms and off after the check at 3050 ms. -/
theorem attivazione_sse_sopra_soglia_witness :
    (stato_con_offset_z (-2) : Stato ℝ).allarme_attivo = false ∧
    (stato_con_offset_z (-2) : Stato ℝ).soglia_vibrazione = 2 ∧
    vibrazione Real.sqrt ciclo_urto (stato_con_offset_z (-2) : Stato ℝ) = 5 / 2 ∧
    conta_allarmi (loop Real.sqrt (stato_con_offset_z (-2) : Stato ℝ) ciclo_urto) =
      conta_allarmi (stato_con_offset_z (-2) : Stato ℝ) + 1 ∧
    (esegui Real.sqrt (stato_con_offset_z (-2) : Stato ℝ)
      (ciclo_urto :: [ciclo_istantaneo fermo_capovolto 950,
        ciclo_istantaneo fermo_capovolto 3000])).allarme_attivo = true ∧
    (esegui Real.sqrt (stato_con_offset_z (-2) : Stato ℝ)
      (ciclo_urto :: [ciclo_istantaneo fermo_capovolto 950,
        ciclo_istantaneo fermo_capovolto 3000] ++
        [ciclo_istantaneo fermo_capovolto 3050])).allarme_attivo = false := by
  have hv : vibrazione Real.sqrt ciclo_urto (stato_con_offset_z (-2) : Stato ℝ) >
      (stato_con_offset_z (-2) : Stato ℝ).soglia_vibrazione := by
    rw [vibrazione_due_e_mezzo ciclo_urto rfl]
    show (5 / 2 : ℝ) > 2
    norm_num
  obtain ⟨-, h2, -, -, h5⟩ :=
    attivazione_sse_sopra_soglia Real.sqrt (stato_con_offset_z (-2) : Stato ℝ) ciclo_urto rfl
  obtain ⟨k1, k2, -⟩ := h5 [ciclo_istantaneo fermo_capovolto 950,
    ciclo_istantaneo fermo_capovolto 3000] (ciclo_istantaneo fermo_capovolto 3050) hv
    (by decide) (by decide)
  exact ⟨rfl, rfl, vibrazione_due_e_mezzo ciclo_urto rfl, h2.2 hv, k1, k2⟩

/-! ## Outputs and alarm flag -/

/-- A run keeps the alarm LED equal to the alarm flag and the buzzer low. -/
theorem esegui_pin (sqrt : α → α) (cicli : List Ciclo) (s : Stato α)
    (h : s.pin_LED_ALLARME = s.allarme_attivo ∧ s.pin_BUZZER = false) :
    (esegui sqrt s cicli).pin_LED_ALLARME = (esegui sqrt s cicli).allarme_attivo ∧
      (esegui sqrt s cicli).pin_BUZZER = false := by
  induction cicli generalizing s with
  | nil => exact h
  | cons c cs ih =>
    rw [esegui_cons]
    exact ih (loop sqrt s c) (loop_pin sqrt s c h)

/-- C8: starting from the initial state, or from any state with the alarm off
and the alarm LED and buzzer low, after every monitoring cycle (any samples, any
clock values) the alarm LED is on exactly when `allarme_attivo` is true and the
buzzer is low; `attiva_allarme` ends with the buzzer low and `disattiva_allarme`
clears both outputs. -/
theorem uscite_coerenti_con_allarme (sqrt : α → α) (s0 : Stato α) (cicli : List Ciclo)
    (t : Nat) :
    (stato_iniziale : Stato α).a_riposo = stato_iniziale ∧
      ((esegui sqrt s0.a_riposo cicli).pin_LED_ALLARME =
          (esegui sqrt s0.a_riposo cicli).allarme_attivo ∧
        (esegui sqrt s0.a_riposo cicli).pin_BUZZER = false) ∧
      ((attiva_allarme t s0).pin_BUZZER = false ∧
        (attiva_allarme t s0).pin_LED_ALLARME = (attiva_allarme t s0).allarme_attivo) ∧
      ((disattiva_allarme s0).pin_BUZZER = false ∧
        (disattiva_allarme s0).pin_LED_ALLARME = (disattiva_allarme s0).allarme_attivo) :=
  ⟨rfl, esegui_pin sqrt cicli s0.a_riposo ⟨rfl, rfl⟩, ⟨rfl, rfl⟩, ⟨rfl, rfl⟩⟩

/-- The three sums of the calibration loop over a constant sample stream. -/
theorem calibra_somme_costante (n : Nat) (c : Campione) :
    (calibra_somme n (fun _ => c) : α × α × α) =
      ((n : α) * ((c.ax : α) / 16384), (n : α) * ((c.ay : α) / 16384),
        (n : α) * ((c.az : α) / 16384)) := by
  induction n with
  | zero => simp [calibra_somme]
  | succ k ih =>
    simp only [calibra_somme] at ih
    simp only [calibra_somme, List.range_succ, List.foldl_append, List.foldl_cons,
      List.foldl_nil, ih, calibra_passo]
    push_cast
    refine Prod.ext ?_ (Prod.ext ?_ ?_) <;> simp only <;> ring

/-- The offsets left by `calibraSensoreCon`. -/
theorem calibraSensoreCon_offset (n : Nat) (letture : Nat → Campione) (s : Stato α) :
    (calibraSensoreCon n letture s).offset_x = (calibra_somme n letture : α × α × α).1 / (n : α) ∧
      (calibraSensoreCon n letture s).offset_y =
        (calibra_somme n letture : α × α × α).2.1 / (n : α) ∧
      (calibraSensoreCon n letture s).offset_z =
        (calibra_somme n letture : α × α × α).2.2 / (n : α) - 1 ∧
      (calibraSensoreCon n letture s).soglia_vibrazione = s.soglia_vibrazione ∧
      (calibraSensoreCon n letture s).allarme_attivo = s.allarme_attivo :=
  ⟨rfl, rfl, rfl, rfl, rfl⟩

/-- Calibration on `n > 0` copies of one sample. -/
theorem calibraSensoreCon_costante (n : Nat) (hn : 0 < n) (c : Campione) (s : Stato α) :
    (calibraSensoreCon n (fun _ => c) s).offset_x = (c.ax : α) / 16384 ∧
      (calibraSensoreCon n (fun _ => c) s).offset_y = (c.ay : α) / 16384 ∧
      (calibraSensoreCon n (fun _ => c) s).offset_z = (c.az : α) / 16384 - 1 := by
  have hn0 : (n : α) ≠ 0 := Nat.cast_ne_zero.2 (Nat.pos_iff_ne_zero.1 hn)
  obtain ⟨h1, h2, h3, -, -⟩ := calibraSensoreCon_offset n (fun _ => c) s
  rw [h1, h2, h3, calibra_somme_costante]
  refine ⟨?_, ?_, ?_⟩ <;> field_simp <;> ring

/-- C4: calibration is the per-axis arithmetic mean.  For every sample count
`n > 0` and every raw sample `(ax, ay, az)` repeated `n` times, `calibraSensore`
run with `n` samples (exact arithmetic) leaves `offset_x = ax/16384`,
`offset_y = ay/16384` and `offset_z = az/16384 - 1`. -/
theorem calibrazione_media_costante (n : Nat) (hn : 0 < n) (c : Campione) (s : Stato α) :
    (calibraSensoreCon n (fun _ => c) s).offset_x = (c.ax : α) / 16384 ∧
      (calibraSensoreCon n (fun _ => c) s).offset_y = (c.ay : α) / 16384 ∧
      (calibraSensoreCon n (fun _ => c) s).offset_z = (c.az : α) / 16384 - 1 :=
  calibraSensoreCon_costante n hn c s

/-- C4 on the scenario of the specification: `calibraSensore` on its 100 samples
`(0, 0, 16384)` leaves the offsets `(0, 0, 0)`. -/
theorem calibrazione_media_costante_witness :
    0 < CAMPIONI_CALIBRAZIONE ∧ CAMPIONI_CALIBRAZIONE = 100 ∧
    (calibraSensore (fun _ => fermo) (stato_iniziale : Stato ℚ)).offset_x = 0 ∧
    (calibraSensore (fun _ => fermo) (stato_iniziale : Stato ℚ)).offset_y = 0 ∧
    (calibraSensore (fun _ => fermo) (stato_iniziale : Stato ℚ)).offset_z = 0 := by
  obtain ⟨h1, h2, h3⟩ := calibrazione_media_costante CAMPIONI_CALIBRAZIONE (by decide) fermo
    (stato_iniziale : Stato ℚ)
  refine ⟨by decide, rfl, ?_, ?_, ?_⟩
  · rw [calibraSensore, h1]
    simp [fermo]
  · rw [calibraSensore, h2]
    simp [fermo]
  · rw [calibraSensore, h3]
    norm_num [fermo]

/-- The accelerations stored by a cycle. -/
theorem loop_accelerazione (sqrt : α → α) (s : Stato α) (c : Ciclo) :
    (loop sqrt s c).accelerazioneX = (c.lettura.ax : α) / 16384 - s.offset_x ∧
      (loop sqrt s c).accelerazioneY = (c.lettura.ay : α) / 16384 - s.offset_y ∧
      (loop sqrt s c).accelerazioneZ = (c.lettura.az : α) / 16384 - s.offset_z ∧
      (loop sqrt s c).magnitudoAccelerazione = (leggi sqrt c s).magnitudoAccelerazione := by
  simp only [loop, leggi, controlla_soglia, gestisci_durata, gestisci_output,
    attiva_allarme_eq, disattiva_allarme, stampa_dati_sensore, println]
  split_ifs <;> simp_all

/-- The corrected accelerations of a motionless sensor: gravity stays on z. -/
theorem loop_fermo_accelerazione (sqrt : α → α) (n : Nat) (hn : 0 < n) (c : Campione)
    (s : Stato α) (d : Ciclo) (hd : d.lettura = c) :
    (loop sqrt (calibraSensoreCon n (fun _ => c) s) d).accelerazioneX = 0 ∧
      (loop sqrt (calibraSensoreCon n (fun _ => c) s) d).accelerazioneY = 0 ∧
      (loop sqrt (calibraSensoreCon n (fun _ => c) s) d).accelerazioneZ = 1 := by
  obtain ⟨h1, h2, h3⟩ := calibraSensoreCon_costante n hn c s
  obtain ⟨k1, k2, k3, -⟩ := loop_accelerazione sqrt (calibraSensoreCon n (fun _ => c) s) d
  rw [k1, k2, k3, h1, h2, h3, hd]
  refine ⟨?_, ?_, ?_⟩ <;> ring

/-- C5 (counterexample): after `calibraSensore` on 100 samples `(0, 0, 16384)`
a cycle that reads `(0, 0, 16384)` again stores `accelerazioneZ = 1`, not `0`. -/
theorem accelerazioneZ_fermo_non_zero :
    (loop Real.sqrt (calibraSensore (fun _ => fermo) (stato_iniziale : Stato ℝ))
        (ciclo_istantaneo fermo 0)).accelerazioneZ = 1 ∧
    ¬ ((loop Real.sqrt (calibraSensore (fun _ => fermo) (stato_iniziale : Stato ℝ))
        (ciclo_istantaneo fermo 0)).accelerazioneZ = 0) := by
  have h := (loop_fermo_accelerazione Real.sqrt CAMPIONI_CALIBRAZIONE (by decide) fermo
    (stato_iniziale : Stato ℝ) (ciclo_istantaneo fermo 0) rfl).2.2
  rw [calibraSensore, h]
  exact ⟨rfl, one_ne_zero⟩

/-- C5 (amended): for a motionless sensor (one raw sample, read `n > 0` times by
the calibration and again by the monitoring cycle) the cycle computes the
corrected accelerations `accelerazioneX = 0`, `accelerazioneY = 0` and
`accelerazioneZ = 1`: the vertical axis reads 1 g. -/
theorem accelerazioneZ_fermo_un_g (sqrt : α → α) (n : Nat) (hn : 0 < n) (c : Campione)
    (s : Stato α) (d : Ciclo) (hd : d.lettura = c) :
    (loop sqrt (calibraSensoreCon n (fun _ => c) s) d).accelerazioneX = 0 ∧
      (loop sqrt (calibraSensoreCon n (fun _ => c) s) d).accelerazioneY = 0 ∧
      (loop sqrt (calibraSensoreCon n (fun _ => c) s) d).accelerazioneZ = 1 :=
  loop_fermo_accelerazione sqrt n hn c s d hd

/-- C5 (amended) on a tilted sensor at rest, calibrated on 100 samples. -/
theorem accelerazioneZ_fermo_un_g_witness :
    (0 < 100 ∧ (ciclo_istantaneo ⟨8192, -4096, 14000⟩ 50).lettura = ⟨8192, -4096, 14000⟩) ∧
    (loop Real.sqrt (calibraSensoreCon 100 (fun _ => ⟨8192, -4096, 14000⟩)
        (stato_iniziale : Stato ℝ)) (ciclo_istantaneo ⟨8192, -4096, 14000⟩ 50)).accelerazioneX
      = 0 ∧
    (loop Real.sqrt (calibraSensoreCon 100 (fun _ => ⟨8192, -4096, 14000⟩)
        (stato_iniziale : Stato ℝ)) (ciclo_istantaneo ⟨8192, -4096, 14000⟩ 50)).accelerazioneY
      = 0 ∧
    (loop Real.sqrt (calibraSensoreCon 100 (fun _ => ⟨8192, -4096, 14000⟩)
        (stato_iniziale : Stato ℝ)) (ciclo_istantaneo ⟨8192, -4096, 14000⟩ 50)).accelerazioneZ
      = 1 :=
  ⟨⟨by decide, rfl⟩,
    accelerazioneZ_fermo_un_g Real.sqrt 100 (by decide) ⟨8192, -4096, 14000⟩
      (stato_iniziale : Stato ℝ) (ciclo_istantaneo ⟨8192, -4096, 14000⟩ 50) rfl⟩

/-! ## The motionless sensor -/

/-- With the offsets of a calibration on the sample `c`, a cycle that reads `c`
computes magnitude 1 and vibration 0 (exact real arithmetic). -/
theorem vibrazione_fermo (s : Stato ℝ) (c : Campione) (d : Ciclo) (hd : d.lettura = c)
    (hx : s.offset_x = (c.ax : ℝ) / 16384) (hy : s.offset_y = (c.ay : ℝ) / 16384)
    (hz : s.offset_z = (c.az : ℝ) / 16384 - 1) :
    (leggi Real.sqrt d s).magnitudoAccelerazione = 1 ∧ vibrazione Real.sqrt d s = 0 := by
  have harg : ((c.ax : ℝ) / 16384 - (c.ax : ℝ) / 16384) ^ 2 +
      ((c.ay : ℝ) / 16384 - (c.ay : ℝ) / 16384) ^ 2 +
      ((c.az : ℝ) / 16384 - ((c.az : ℝ) / 16384 - 1)) ^ 2 = 1 := by ring
  have hm : (leggi Real.sqrt d s).magnitudoAccelerazione = 1 := by
    simp only [leggi, hx, hy, hz, hd]
    rw [harg, Real.sqrt_one]
  refine ⟨hm, ?_⟩
  rw [vibrazione, hm]
  simp

/-- C6: a motionless calibrated sensor never raises the alarm.  With the offsets
produced by `calibraSensore` on `n > 0` copies of a raw sample `c`, threshold 2.0
and the alarm off, after any number of cycles that read `c` a further cycle `d`
that reads `c` computes (exact real arithmetic) magnitude 1 and vibration 0, the
alarm is off before and after it, and no activation has been reported. -/
theorem sensore_fermo_mai_allarme (n : Nat) (hn : 0 < n) (c : Campione) (s0 : Stato ℝ)
    (hs : s0.soglia_vibrazione = 2) (ha : s0.allarme_attivo = false)
    (cicli : List Ciclo) (d : Ciclo)
    (hc : ∀ x ∈ cicli, x.lettura = c) (hd : d.lettura = c) :
    (loop Real.sqrt (esegui Real.sqrt (calibraSensoreCon n (fun _ => c) s0) cicli)
        d).magnitudoAccelerazione = 1 ∧
      vibrazione Real.sqrt d (esegui Real.sqrt (calibraSensoreCon n (fun _ => c) s0) cicli)
        = 0 ∧
      (esegui Real.sqrt (calibraSensoreCon n (fun _ => c) s0) cicli).allarme_attivo = false ∧
      (esegui Real.sqrt (calibraSensoreCon n (fun _ => c) s0) (cicli ++ [d])).allarme_attivo
        = false ∧
      conta_allarmi (esegui Real.sqrt (calibraSensoreCon n (fun _ => c) s0) (cicli ++ [d])) =
        conta_allarmi (calibraSensoreCon n (fun _ => c) s0) := by
  obtain ⟨o1, o2, o3⟩ := calibraSensoreCon_costante n hn c s0
  obtain ⟨-, -, -, o4, o5⟩ := calibraSensoreCon_offset n (fun _ => c) s0
  have hquieto : ∀ x : Ciclo, x.lettura = c →
      ¬ (vibrazione Real.sqrt x (calibraSensoreCon n (fun _ => c) s0) >
        (calibraSensoreCon n (fun _ => c) s0).soglia_vibrazione) := by
    intro x hx
    rw [(vibrazione_fermo _ c x hx o1 o2 o3).2, o4, hs]
    norm_num
  have hall : ∀ x ∈ cicli ++ [d],
      ¬ (vibrazione Real.sqrt x (calibraSensoreCon n (fun _ => c) s0) >
        (calibraSensoreCon n (fun _ => c) s0).soglia_vibrazione) := by
    intro x hx
    rcases List.mem_append.1 hx with h | h
    · exact hquieto x (hc x h)
    · rw [List.mem_singleton.1 h]
      exact hquieto d hd
  obtain ⟨a1, -, -⟩ := esegui_spento_quieto Real.sqrt cicli _ (o5.trans ha)
    (fun x hx => hall x (List.mem_append.2 (Or.inl hx)))
  obtain ⟨b1, -, b3⟩ := esegui_spento_quieto Real.sqrt (cicli ++ [d]) _ (o5.trans ha) hall
  obtain ⟨e1, e2, e3, -⟩ := esegui_offset Real.sqrt cicli (calibraSensoreCon n (fun _ => c) s0)
  obtain ⟨m1, m2⟩ := vibrazione_fermo
    (esegui Real.sqrt (calibraSensoreCon n (fun _ => c) s0) cicli) c d hd
    (e1.trans o1) (e2.trans o2) (e3.trans o3)
  exact ⟨(loop_accelerazione Real.sqrt _ d).2.2.2.trans m1, m2, a1, b1, b3⟩

/-- C6 on a tilted sensor at rest, calibrated on 100 samples and read in three
cycles. -/
theorem sensore_fermo_mai_allarme_witness :
    (0 < 100 ∧ (stato_iniziale : Stato ℝ).soglia_vibrazione = 2 ∧
      (stato_iniziale : Stato ℝ).allarme_attivo = false) ∧
    (loop Real.sqrt (esegui Real.sqrt
        (calibraSensoreCon 100 (fun _ => ⟨8192, -4096, 14000⟩) (stato_iniziale : Stato ℝ))
        [ciclo_istantaneo ⟨8192, -4096, 14000⟩ 0, ciclo_istantaneo ⟨8192, -4096, 14000⟩ 50])
      (ciclo_istantaneo ⟨8192, -4096, 14000⟩ 100)).magnitudoAccelerazione = 1 ∧
    (esegui Real.sqrt
        (calibraSensoreCon 100 (fun _ => ⟨8192, -4096, 14000⟩) (stato_iniziale : Stato ℝ))
        ([ciclo_istantaneo ⟨8192, -4096, 14000⟩ 0, ciclo_istantaneo ⟨8192, -4096, 14000⟩ 50] ++
          [ciclo_istantaneo ⟨8192, -4096, 14000⟩ 100])).allarme_attivo = false := by
  obtain ⟨h1, -, -, h4, -⟩ := sensore_fermo_mai_allarme 100 (by decide) ⟨8192, -4096, 14000⟩
    (stato_iniziale : Stato ℝ) rfl rfl
    [ciclo_istantaneo ⟨8192, -4096, 14000⟩ 0, ciclo_istantaneo ⟨8192, -4096, 14000⟩ 50]
    (ciclo_istantaneo ⟨8192, -4096, 14000⟩ 100) (by decide) rfl
  exact ⟨⟨by decide, rfl, rfl⟩, h1, h4⟩

/-! ## Reporting cadence -/

theorem sub_ulong_periodico (t0 i j p : Nat) (hji : j ≤ i) (hd : (i - j) * p < 2 ^ 32) :
    sub_ulong ((t0 + i * p) % 2 ^ 32) ((t0 + j * p) % 2 ^ 32) = (i - j) * p := by
  have h : i * p = j * p + (i - j) * p := by
    rw [← Nat.add_mul, Nat.add_sub_cancel' hji]
  rw [h]
  generalize j * p = a at *
  generalize (i - j) * p = d at *
  unfold sub_ulong
  omega

theorem cicli_periodici_succ (letture : Nat → Campione) (t0 p n : Nat) :
    cicli_periodici letture t0 p (n + 1) =
      cicli_periodici letture t0 p n ++
        [ciclo_istantaneo (letture n) ((t0 + n * p) % 2 ^ 32)] := by
  simp [cicli_periodici, List.range_succ]

/-- With the first cycle at a clock value above 500 and cycles every `p` ms, the
first cycle reports and then a report is emitted every `500 / p + 1` cycles. -/
theorem esegui_periodici_rapporti (sqrt : α → α) (letture : Nat → Campione) (t0 p : Nat)
    (ht0 : 500 < t0) (ht0M : t0 < 2 ^ 32) (hp0 : 0 < p) (hp : p < 500)
    (s : Stato α) (hs : s.ultimo_output = 0) (m : Nat) :
    (esegui sqrt s (cicli_periodici letture t0 p (m + 1))).ultimo_output =
        (t0 + (m / (500 / p + 1)) * (500 / p + 1) * p) % 2 ^ 32 ∧
      conta_dati (esegui sqrt s (cicli_periodici letture t0 p (m + 1))) =
        conta_dati s + m / (500 / p + 1) + 1 := by
  have hK1 : (500 / p) * p ≤ 500 := Nat.div_mul_le_self 500 p
  have hK2 : 500 < (500 / p + 1) * p := by
    have := Nat.lt_mul_div_succ 500 hp0
    rw [Nat.mul_comm] at this
    exact this
  generalize hK : 500 / p + 1 = K at *
  have hKpos : 0 < K := by
    rw [← hK]
    exact Nat.succ_pos _
  have hmod : t0 % 4294967296 = t0 := by omega
  induction m with
  | zero =>
    have hc : cicli_periodici letture t0 p 1 = [ciclo_istantaneo (letture 0) t0] := by
      simp [cicli_periodici, List.range_succ, hmod]
    obtain ⟨h1, h2⟩ := loop_output sqrt s (ciclo_istantaneo (letture 0) t0)
    have hsi : sub_ulong (ciclo_istantaneo (letture 0) t0).millis_output s.ultimo_output
        > 500 := by
      rw [hs]
      show sub_ulong t0 0 > 500
      unfold sub_ulong
      omega
    rw [hc, esegui_cons, esegui_nil, h1, h2, if_pos hsi, if_pos hsi]
    simp [ciclo_istantaneo, hmod]
  | succ m ih =>
    obtain ⟨ih1, ih2⟩ := ih
    rw [cicli_periodici_succ, esegui_append, esegui_cons, esegui_nil]
    obtain ⟨h1, h2⟩ := loop_output sqrt (esegui sqrt s (cicli_periodici letture t0 p (m + 1)))
      (ciclo_istantaneo (letture (m + 1)) ((t0 + (m + 1) * p) % 2 ^ 32))
    have hdm : K * (m / K) + m % K = m := Nat.div_add_mod m K
    have hr : m % K < K := Nat.mod_lt m hKpos
    have hj : m / K * K ≤ m + 1 := by
      rw [Nat.mul_comm]
      omega
    have hdiff : m + 1 - m / K * K = m % K + 1 := by
      rw [Nat.mul_comm]
      omega
    have hle : (m % K + 1) * p ≤ K * p := Nat.mul_le_mul_right p (by omega)
    have hKp : K * p < 2 ^ 32 := by
      have : K * p = (500 / p) * p + p := by
        rw [← hK, Nat.add_mul, Nat.one_mul]
      omega
    have hsub : sub_ulong
        (ciclo_istantaneo (letture (m + 1)) ((t0 + (m + 1) * p) % 2 ^ 32)).millis_output
        (esegui sqrt s (cicli_periodici letture t0 p (m + 1))).ultimo_output =
        (m % K + 1) * p := by
      rw [ih1]
      show sub_ulong ((t0 + (m + 1) * p) % 2 ^ 32) ((t0 + m / K * K * p) % 2 ^ 32) =
        (m % K + 1) * p
      rw [sub_ulong_periodico t0 (m + 1) (m / K * K) p hj (by rw [hdiff]; omega), hdiff]
    rw [h1, h2, hsub]
    by_cases hfull : m % K + 1 = K
    · have hdvd : K ∣ m + 1 := ⟨m / K + 1, by rw [Nat.mul_add, Nat.mul_one]; omega⟩
      have hdiv : (m + 1) / K = m / K + 1 := by
        rw [Nat.succ_div, if_pos hdvd]
      have hmul : (m / K + 1) * K = m + 1 := by
        rw [Nat.add_mul, Nat.one_mul, Nat.mul_comm]
        omega
      have hfire : (m % K + 1) * p > 500 := by
        rw [hfull]
        exact hK2
      rw [if_pos hfire, if_pos hfire, hdiv, hmul, ih2]
      exact ⟨rfl, by omega⟩
    · have hndvd : ¬ K ∣ m + 1 := by
        rintro ⟨t, ht⟩
        have h3 : K * t = K * (m / K) + (m % K + 1) := by omega
        have h4 : (K * t) % K = 0 := Nat.mul_mod_right K t
        rw [h3, Nat.mul_add_mod, Nat.mod_eq_of_lt (by omega)] at h4
        omega
      have hdiv : (m + 1) / K = m / K := by
        rw [Nat.succ_div, if_neg hndvd, Nat.add_zero]
      have hnofire : ¬ ((m % K + 1) * p > 500) := by
        have h5 : m % K + 1 ≤ 500 / p := by omega
        have h6 : (m % K + 1) * p ≤ (500 / p) * p := Nat.mul_le_mul_right p h5
        omega
      rw [if_neg hnofire, if_neg hnofire, hdiv, ih1, ih2]
      exact ⟨rfl, by omega⟩

/-- C7 (amended): in a run of `T` ms whose cycles happen every `p` ms,
`0 < p < 500`, from a first cycle at a clock value `t0 > 500` (the loop starts
after `setup`, whose calibration alone waits 100 x 10 ms) with
`ultimo_output = 0`, the number of reports emitted is
`floor(T / (p * (floor(500 / p) + 1))) + 1`: one report in the first cycle and
then one every `floor(500 / p) + 1` cycles, the first multiple of `p` above
500 ms.  It never exceeds `floor(T / 500) + 1`. -/
theorem rapporti_dopo_avvio (sqrt : α → α) (letture : Nat → Campione)
    (t0 p T : Nat) (ht0 : 500 < t0) (ht0M : t0 < 2 ^ 32) (hp0 : 0 < p) (hp : p < 500)
    (s : Stato α) (hs : s.ultimo_output = 0) :
    conta_dati (esegui sqrt s (cicli_periodici letture t0 p (T / p + 1))) =
        conta_dati s + T / (p * (500 / p + 1)) + 1 ∧
      T / (p * (500 / p + 1)) + 1 ≤ T / 500 + 1 := by
  constructor
  · rw [(esegui_periodici_rapporti sqrt letture t0 p ht0 ht0M hp0 hp s hs (T / p)).2,
      Nat.div_div_eq_div_mul]
  · apply Nat.add_le_add_right
    apply Nat.div_le_div_left _ (by norm_num)
    have := Nat.lt_mul_div_succ 500 hp0
    omega

/-- C7 (amended) after a calibration at rest, loop started at 1200 ms, 50 ms
period: two reports in the first second (at 1200 ms and at 1750 ms). -/
theorem rapporti_dopo_avvio_witness :
    (500 < 1200 ∧ 1200 < 2 ^ 32 ∧ 0 < 50 ∧ 50 < 500 ∧
      (calibraSensore (fun _ => fermo) (stato_iniziale : Stato ℝ)).ultimo_output = 0) ∧
    conta_dati (esegui Real.sqrt (calibraSensore (fun _ => fermo) (stato_iniziale : Stato ℝ))
        (cicli_periodici (fun _ => fermo) 1200 50 (1000 / 50 + 1))) =
      conta_dati (calibraSensore (fun _ => fermo) (stato_iniziale : Stato ℝ)) +
        1000 / (50 * (500 / 50 + 1)) + 1 ∧
    1000 / (50 * (500 / 50 + 1)) + 1 = 2 :=
  ⟨⟨by decide, by decide, by decide, by decide, rfl⟩,
    (rapporti_dopo_avvio Real.sqrt (fun _ => fermo) 1200 50 1000 (by decide) (by decide)
      (by decide) (by decide) (calibraSensore (fun _ => fermo) (stato_iniziale : Stato ℝ))
      rfl).1, by decide⟩

/-- The sensor at rest with zero offsets does not exceed the threshold. -/
theorem vibrazione_fermo_sotto_soglia (s : Stato ℝ) (c : Ciclo)
    (hx : s.offset_x = 0) (hy : s.offset_y = 0) (hz : s.offset_z = 0)
    (hc : c.lettura = fermo) : ¬ (vibrazione Real.sqrt c s > 2) := by
  rw [vibrazione_gt_due_iff s c hx hy hz, hc]
  decide

/-- C7 (counterexample): the program as it starts.  `calibraSensore` on the
sensor at rest, then the loop from 1200 ms with a cycle every 50 ms for
22000 ms, sensor still at rest, no alarm activation.  The first cycle reports
and then reports are 550 ms apart: 41 in all, while
`floor(22000 / 500) = 44`; the difference is 3. -/
theorem rapporti_non_entro_uno :
    (50 < 500 ∧
      (calibraSensore (fun _ => fermo) (stato_iniziale : Stato ℝ)).ultimo_output = 0 ∧
      conta_dati (calibraSensore (fun _ => fermo) (stato_iniziale : Stato ℝ)) = 0) ∧
    conta_allarmi (esegui Real.sqrt (calibraSensore (fun _ => fermo) (stato_iniziale : Stato ℝ))
        (cicli_periodici (fun _ => fermo) 1200 50 (22000 / 50 + 1))) = 0 ∧
    conta_dati (esegui Real.sqrt (calibraSensore (fun _ => fermo) (stato_iniziale : Stato ℝ))
        (cicli_periodici (fun _ => fermo) 1200 50 (22000 / 50 + 1))) = 41 ∧
    22000 / 500 = 44 ∧
    ¬ (Int.natAbs ((conta_dati (esegui Real.sqrt
        (calibraSensore (fun _ => fermo) (stato_iniziale : Stato ℝ))
        (cicli_periodici (fun _ => fermo) 1200 50 (22000 / 50 + 1))) : Int) -
          ((22000 / 500 : Nat) : Int)) ≤ 1) := by
  obtain ⟨o1, o2, o3⟩ := calibraSensoreCon_costante CAMPIONI_CALIBRAZIONE (by decide) fermo
    (stato_iniziale : Stato ℝ)
  have hx : (calibraSensore (fun _ => fermo) (stato_iniziale : Stato ℝ)).offset_x = 0 := by
    rw [calibraSensore, o1]
    simp [fermo]
  have hy : (calibraSensore (fun _ => fermo) (stato_iniziale : Stato ℝ)).offset_y = 0 := by
    rw [calibraSensore, o2]
    simp [fermo]
  have hz : (calibraSensore (fun _ => fermo) (stato_iniziale : Stato ℝ)).offset_z = 0 := by
    rw [calibraSensore, o3]
    norm_num [fermo]
  have hq : ∀ c ∈ cicli_periodici (fun _ => fermo) 1200 50 (22000 / 50 + 1),
      ¬ (vibrazione Real.sqrt c (calibraSensore (fun _ => fermo) (stato_iniziale : Stato ℝ)) >
        (calibraSensore (fun _ => fermo) (stato_iniziale : Stato ℝ)).soglia_vibrazione) := by
    intro c hc
    have hl : c.lettura = fermo := by
      simp only [cicli_periodici, List.mem_map] at hc
      obtain ⟨k, -, hk⟩ := hc
      rw [← hk]
      rfl
    exact vibrazione_fermo_sotto_soglia _ c hx hy hz hl
  have ha := (esegui_spento_quieto Real.sqrt _
    (calibraSensore (fun _ => fermo) (stato_iniziale : Stato ℝ)) rfl hq).2.2
  have hd := (esegui_periodici_rapporti Real.sqrt (fun _ => fermo) 1200 50 (by decide)
    (by decide) (by decide) (by decide)
    (calibraSensore (fun _ => fermo) (stato_iniziale : Stato ℝ)) rfl (22000 / 50)).2
  have hz0 : conta_dati (calibraSensore (fun _ => fermo) (stato_iniziale : Stato ℝ)) = 0 := rfl
  have hd41 : conta_dati (esegui Real.sqrt
      (calibraSensore (fun _ => fermo) (stato_iniziale : Stato ℝ))
      (cicli_periodici (fun _ => fermo) 1200 50 (22000 / 50 + 1))) = 41 := by
    rw [hd, hz0]
  refine ⟨⟨by decide, rfl, hz0⟩, ha.trans rfl, hd41, by decide, ?_⟩
  rw [hd41]
  decide

/-! ## The threshold with rounded `float` values -/

/-- Without rounding `loop_arrotondato` is `loop`. -/
theorem loop_arrotondato_id (sqrt : α → α) (s : Stato α) (c : Ciclo) :
    loop_arrotondato sqrt id id s c = loop sqrt s c := rfl

/-- A rounded cycle that starts with the alarm off and does not exceed the
threshold reports no activation and leaves the alarm off. -/
theorem loop_arrotondato_spento_quieto (sqrt a_double a_float : α → α) (s : Stato α)
    (c : Ciclo) (ha : s.allarme_attivo = false)
    (hv : ¬ (vibrazione_arrotondata sqrt a_double a_float c s > s.soglia_vibrazione)) :
    (loop_arrotondato sqrt a_double a_float s c).allarme_attivo = false ∧
      conta_allarmi (loop_arrotondato sqrt a_double a_float s c) = conta_allarmi s := by
  simp only [vibrazione_arrotondata, leggi_arrotondato] at hv
  simp only [loop_arrotondato, leggi_arrotondato, controlla_soglia, gestisci_durata,
    gestisci_output_arrotondato, attiva_allarme_eq, disattiva_allarme,
    stampa_dati_sensore_arrotondato, println, conta_allarmi]
  split_ifs <;> simp_all [Riga.segnala_allarme]

theorem intero_vicino_eq (y : ℝ) (N : Int) (h : |y - (N : ℝ)| < 1 / 2) :
    intero_vicino y = N := by
  obtain ⟨hlo, hhi⟩ := abs_lt.1 h
  by_cases hy : (N : ℝ) ≤ y
  · have hf : ⌊y⌋ = N := Int.floor_eq_iff.2 ⟨hy, by linarith⟩
    unfold intero_vicino
    rw [hf, if_pos hhi]
  · have hf : ⌊y⌋ = N - 1 := Int.floor_eq_iff.2 ⟨by push_cast; linarith, by push_cast; linarith⟩
    have h1 : ¬ (y - ((N - 1 : Int) : ℝ) < 1 / 2) := by
      push_cast
      linarith
    have h2 : 1 / 2 < y - ((N - 1 : Int) : ℝ) := by
      push_cast
      linarith
    unfold intero_vicino
    rw [hf, if_neg h1, if_pos h2]
    omega

theorem intero_vicino_abs_sub_le (y : ℝ) : |((intero_vicino y : Int) : ℝ) - y| ≤ 1 / 2 := by
  have h1 : (⌊y⌋ : ℝ) ≤ y := Int.floor_le y
  have h2 : y < (⌊y⌋ : ℝ) + 1 := Int.lt_floor_add_one y
  unfold intero_vicino
  split_ifs with a b c
  · rw [abs_le]
    constructor <;> linarith
  · rw [abs_le]
    push_cast
    constructor <;> linarith
  · rw [abs_le]
    constructor <;> linarith
  · rw [abs_le]
    push_cast
    constructor <;> linarith

theorem log_due_eq (x : ℝ) (e : Int) (h1 : (2 : ℝ) ^ e ≤ x) (h2 : x < (2 : ℝ) ^ (e + 1)) :
    Int.log 2 x = e := by
  have hx : 0 < x := lt_of_lt_of_le (zpow_pos (by norm_num) e) h1
  have a : e ≤ Int.log 2 x :=
    (Int.zpow_le_iff_le_log (by norm_num : 1 < 2) hx).1 (by exact_mod_cast h1)
  have b : Int.log 2 x < e + 1 :=
    (Int.lt_zpow_iff_log_lt (by norm_num : 1 < 2) hx).1 (by exact_mod_cast h2)
  omega

/-- The rounding of `x` in the binade `2 ^ e ≤ |x| < 2 ^ (e + 1)` is `N` quanta
when `x` is within half a quantum of it. -/
theorem arrotonda_eq (p emin e N : Int) (x : ℝ)
    (h1 : (2 : ℝ) ^ e ≤ |x|) (h2 : |x| < (2 : ℝ) ^ (e + 1)) (hemin : emin ≤ e)
    (hN : |x / (2 : ℝ) ^ (e - (p - 1)) - (N : ℝ)| < 1 / 2) :
    arrotonda p emin x = (N : ℝ) * (2 : ℝ) ^ (e - (p - 1)) := by
  have hx : x ≠ 0 := by
    intro h0
    rw [h0, abs_zero] at h1
    exact absurd h1 (not_le.2 (zpow_pos (by norm_num) e))
  unfold arrotonda
  rw [if_neg hx, log_due_eq |x| e h1 h2, max_eq_left hemin, intero_vicino_eq _ N hN]

/-- The rounding of `x` in the binade `2 ^ e ≤ |x| < 2 ^ (e + 1)` moves it by at
most half a quantum. -/
theorem arrotonda_abs_sub_le (p emin e : Int) (x : ℝ)
    (h1 : (2 : ℝ) ^ e ≤ |x|) (h2 : |x| < (2 : ℝ) ^ (e + 1)) (hemin : emin ≤ e) :
    |arrotonda p emin x - x| ≤ (2 : ℝ) ^ (e - (p - 1)) / 2 := by
  have hx : x ≠ 0 := by
    intro h0
    rw [h0, abs_zero] at h1
    exact absurd h1 (not_le.2 (zpow_pos (by norm_num) e))
  have hq : (0 : ℝ) < (2 : ℝ) ^ (e - (p - 1)) := zpow_pos (by norm_num) _
  unfold arrotonda
  rw [if_neg hx, log_due_eq |x| e h1 h2, max_eq_left hemin]
  have h := intero_vicino_abs_sub_le (x / (2 : ℝ) ^ (e - (p - 1)))
  have hsplit : ((intero_vicino (x / (2 : ℝ) ^ (e - (p - 1))) : Int) : ℝ) *
      (2 : ℝ) ^ (e - (p - 1)) - x =
      (((intero_vicino (x / (2 : ℝ) ^ (e - (p - 1))) : Int) : ℝ) -
        x / (2 : ℝ) ^ (e - (p - 1))) * (2 : ℝ) ^ (e - (p - 1)) := by
    field_simp
  rw [hsplit, abs_mul, abs_of_pos hq]
  calc |((intero_vicino (x / (2 : ℝ) ^ (e - (p - 1))) : Int) : ℝ) -
        x / (2 : ℝ) ^ (e - (p - 1))| * (2 : ℝ) ^ (e - (p - 1))
      ≤ 1 / 2 * (2 : ℝ) ^ (e - (p - 1)) := mul_le_mul_of_nonneg_right h hq.le
    _ = (2 : ℝ) ^ (e - (p - 1)) / 2 := by ring

/-- A value that is a whole number of quanta of its binade is not changed. -/
theorem arrotonda_fisso (p emin e N : Int) (x : ℝ)
    (h1 : (2 : ℝ) ^ e ≤ |x|) (h2 : |x| < (2 : ℝ) ^ (e + 1)) (hemin : emin ≤ e)
    (hx : x = (N : ℝ) * (2 : ℝ) ^ (e - (p - 1))) :
    arrotonda p emin x = x := by
  have hq : (2 : ℝ) ^ (e - (p - 1)) ≠ 0 := (zpow_pos (by norm_num) _).ne'
  have hN : |x / (2 : ℝ) ^ (e - (p - 1)) - (N : ℝ)| < 1 / 2 := by
    rw [hx, mul_div_assoc, div_self hq, mul_one, sub_self, abs_zero]
    norm_num
  rw [arrotonda_eq p emin e N x h1 h2 hemin hN, ← hx]

theorem binary64_meno_due : binary64 (-2 : ℝ) = -2 :=
  arrotonda_fisso 53 (-1022) 1 (-4503599627370496) (-2)
    (by norm_num) (by norm_num) (by norm_num) (by norm_num)

theorem binary32_meno_due : binary32 (-2 : ℝ) = -2 :=
  arrotonda_fisso 24 (-126) 1 (-8388608) (-2)
    (by norm_num) (by norm_num) (by norm_num) (by norm_num)

theorem binary64_meno_y : binary64 (-32767 / 16384 : ℝ) = -32767 / 16384 :=
  arrotonda_fisso 53 (-1022) 0 (-9006924376834048) (-32767 / 16384)
    (by norm_num [abs_div]) (by norm_num [abs_div]) (by norm_num) (by norm_num)

theorem binary32_meno_y : binary32 (-32767 / 16384 : ℝ) = -32767 / 16384 :=
  arrotonda_fisso 24 (-126) 0 (-16776704) (-32767 / 16384)
    (by norm_num [abs_div]) (by norm_num [abs_div]) (by norm_num) (by norm_num)

theorem binary64_z : binary64 (8193 / 8192 : ℝ) = 8193 / 8192 :=
  arrotonda_fisso 53 (-1022) 0 4504149383184384 (8193 / 8192)
    (by norm_num [abs_div]) (by norm_num [abs_div]) (by norm_num) (by norm_num)

theorem binary32_z : binary32 (8193 / 8192 : ℝ) = 8193 / 8192 :=
  arrotonda_fisso 24 (-126) 0 8389632 (8193 / 8192)
    (by norm_num [abs_div]) (by norm_num [abs_div]) (by norm_num) (by norm_num)

theorem binary64_quattro : binary64 (4 : ℝ) = 4 :=
  arrotonda_fisso 53 (-1022) 2 4503599627370496 4
    (by norm_num) (by norm_num) (by norm_num) (by norm_num)

theorem binary64_y_quadro :
    binary64 (1073676289 / 268435456 : ℝ) = 1073676289 / 268435456 :=
  arrotonda_fisso 53 (-1022) 1 9006649507315712 (1073676289 / 268435456)
    (by norm_num [abs_div]) (by norm_num [abs_div]) (by norm_num) (by norm_num)

theorem binary64_z_quadro :
    binary64 (67125249 / 67108864 : ℝ) = 67125249 / 67108864 :=
  arrotonda_fisso 53 (-1022) 0 4504699206107136 (67125249 / 67108864)
    (by norm_num [abs_div]) (by norm_num [abs_div]) (by norm_num) (by norm_num)

theorem binary64_somma_xy :
    binary64 (2147418113 / 268435456 : ℝ) = 2147418113 / 268435456 :=
  arrotonda_fisso 53 (-1022) 2 9006924381028352 (2147418113 / 268435456)
    (by norm_num [abs_div]) (by norm_num [abs_div]) (by norm_num) (by norm_num)

theorem binary64_somma_xyz :
    binary64 (2415919109 / 268435456 : ℝ) = 2415919109 / 268435456 :=
  arrotonda_fisso 53 (-1022) 3 5066549591277568 (2415919109 / 268435456)
    (by norm_num [abs_div]) (by norm_num [abs_div]) (by norm_num) (by norm_num)

theorem binary64_due : binary64 (2 : ℝ) = 2 :=
  arrotonda_fisso 53 (-1022) 1 4503599627370496 2
    (by norm_num) (by norm_num) (by norm_num) (by norm_num)

theorem binary32_due : binary32 (2 : ℝ) = 2 :=
  arrotonda_fisso 24 (-126) 1 8388608 2
    (by norm_num) (by norm_num) (by norm_num) (by norm_num)

/-- A `float` stored from a `double` square root that lies within `2 ^ (-24)`
above 3 is exactly 3. -/
theorem binary32_binary64_poco_sopra_tre (r : ℝ) (h1 : 3 < r) (h2 : r < 3 + 1 / 16777216) :
    binary32 (binary64 r) = 3 := by
  have hr1 : (2 : ℝ) ^ (1 : Int) ≤ |r| := by
    rw [abs_of_pos (by linarith)]
    norm_num
    linarith
  have hr2 : |r| < (2 : ℝ) ^ ((1 : Int) + 1) := by
    rw [abs_of_pos (by linarith)]
    norm_num
    linarith
  have hd := arrotonda_abs_sub_le 53 (-1022) 1 r hr1 hr2 (by norm_num)
  have hq : (2 : ℝ) ^ ((1 : Int) - (53 - 1)) / 2 = 1 / 4503599627370496 := by norm_num
  rw [hq] at hd
  obtain ⟨hd1, hd2⟩ := abs_le.1 hd
  have hpos : 0 < binary64 r := by
    unfold binary64
    linarith
  have hb1 : (2 : ℝ) ^ (1 : Int) ≤ |binary64 r| := by
    rw [abs_of_pos hpos]
    unfold binary64
    norm_num
    linarith
  have hb2 : |binary64 r| < (2 : ℝ) ^ ((1 : Int) + 1) := by
    rw [abs_of_pos hpos]
    unfold binary64
    norm_num
    linarith
  have hN : |binary64 r / (2 : ℝ) ^ ((1 : Int) - (24 - 1)) - ((12582912 : Int) : ℝ)| < 1 / 2 := by
    have hq2 : (2 : ℝ) ^ ((1 : Int) - (24 - 1)) = 1 / 4194304 := by norm_num
    rw [hq2, abs_lt]
    unfold binary64
    push_cast
    constructor
    · rw [div_div_eq_mul_div, div_one]
      linarith
    · rw [div_div_eq_mul_div, div_one]
      linarith
  rw [binary32, arrotonda_eq 24 (-126) 1 12582912 (binary64 r) hb1 hb2 (by norm_num) hN]
  norm_num

/-- The stored vibration of the sample just above 3 g, with binary64 `double` and
binary32 `float`: the magnitude is rounded to 3 and the vibration is 2. -/
theorem vibrazione_arrotondata_al_limite (c : Ciclo) (hc : c.lettura = campione_al_limite) :
    (leggi_arrotondato Real.sqrt binary64 binary32 c
        (stato_iniziale : Stato ℝ)).magnitudoAccelerazione = 3 ∧
      vibrazione_arrotondata Real.sqrt binary64 binary32 c (stato_iniziale : Stato ℝ) = 2 := by
  have hX : binary32 (binary64 (binary64 (((-32768 : Int) : ℝ) / 16384) - 0)) = -2 := by
    rw [show ((-32768 : Int) : ℝ) / 16384 = -2 by norm_num, binary64_meno_due, sub_zero,
      binary64_meno_due, binary32_meno_due]
  have hY : binary32 (binary64 (binary64 (((-32767 : Int) : ℝ) / 16384) - 0)) =
      -32767 / 16384 := by
    rw [show ((-32767 : Int) : ℝ) / 16384 = -32767 / 16384 by norm_num, binary64_meno_y,
      sub_zero, binary64_meno_y, binary32_meno_y]
  have hZ : binary32 (binary64 (binary64 (((16386 : Int) : ℝ) / 16384) - 0)) =
      8193 / 8192 := by
    rw [show ((16386 : Int) : ℝ) / 16384 = 8193 / 8192 by norm_num, binary64_z,
      sub_zero, binary64_z, binary32_z]
  have hS : binary64 (binary64 (binary64 ((-2 : ℝ) ^ 2) + binary64 ((-32767 / 16384 : ℝ) ^ 2)) +
      binary64 ((8193 / 8192 : ℝ) ^ 2)) = 2415919109 / 268435456 := by
    rw [show ((-2 : ℝ) ^ 2) = 4 by norm_num,
      show ((-32767 / 16384 : ℝ) ^ 2) = 1073676289 / 268435456 by norm_num,
      show ((8193 / 8192 : ℝ) ^ 2) = 67125249 / 67108864 by norm_num,
      binary64_quattro, binary64_y_quadro, binary64_z_quadro,
      show (4 + 1073676289 / 268435456 : ℝ) = 2147418113 / 268435456 by norm_num,
      binary64_somma_xy,
      show (2147418113 / 268435456 + 67125249 / 67108864 : ℝ) = 2415919109 / 268435456
        by norm_num,
      binary64_somma_xyz]
  have hM : binary32 (binary64 (Real.sqrt (2415919109 / 268435456))) = 3 := by
    apply binary32_binary64_poco_sopra_tre
    · rw [Real.lt_sqrt (by norm_num)]
      norm_num
    · rw [Real.sqrt_lt' (by norm_num)]
      norm_num
  have hV : binary32 |binary64 ((3 : ℝ) - 1)| = 2 := by
    rw [show ((3 : ℝ) - 1) = 2 by norm_num, binary64_due, abs_of_pos (by norm_num),
      binary32_due]
  have hm : (leggi_arrotondato Real.sqrt binary64 binary32 c
      (stato_iniziale : Stato ℝ)).magnitudoAccelerazione = 3 := by
    simp only [leggi_arrotondato, stato_iniziale, hc, campione_al_limite]
    rw [hX, hY, hZ, hS, hM]
  refine ⟨hm, ?_⟩
  rw [vibrazione_arrotondata, hm, hV]

theorem binary32_quattro : binary32 (4 : ℝ) = 4 :=
  arrotonda_fisso 24 (-126) 2 8388608 4
    (by norm_num) (by norm_num) (by norm_num) (by norm_num)

theorem binary32_y_quadro : binary32 (1073676289 / 268435456 : ℝ) = 16383 / 4096 := by
  rw [binary32, arrotonda_eq 24 (-126) 1 16776192 (1073676289 / 268435456)
    (by norm_num [abs_div]) (by norm_num [abs_div]) (by norm_num)
    (by rw [abs_lt]; constructor <;> norm_num)]
  norm_num

theorem binary32_z_quadro : binary32 (67125249 / 67108864 : ℝ) = 4097 / 4096 := by
  rw [binary32, arrotonda_eq 24 (-126) 0 8390656 (67125249 / 67108864)
    (by norm_num [abs_div]) (by norm_num [abs_div]) (by norm_num)
    (by rw [abs_lt]; constructor <;> norm_num)]
  norm_num

theorem binary32_somma_xy : binary32 (32767 / 4096 : ℝ) = 32767 / 4096 :=
  arrotonda_fisso 24 (-126) 2 16776704 (32767 / 4096)
    (by norm_num [abs_div]) (by norm_num [abs_div]) (by norm_num) (by norm_num)

theorem binary32_nove : binary32 (9 : ℝ) = 9 :=
  arrotonda_fisso 24 (-126) 3 9437184 9
    (by norm_num) (by norm_num) (by norm_num) (by norm_num)

theorem binary32_tre : binary32 (3 : ℝ) = 3 :=
  arrotonda_fisso 24 (-126) 1 12582912 3
    (by norm_num) (by norm_num) (by norm_num) (by norm_num)

/-- The stored vibration of the sample just above 3 g when `double` is binary32
as well (as on 8-bit AVR boards): the sum of the squares is rounded to 9, the
magnitude is 3 and the vibration is 2. -/
theorem vibrazione_arrotondata_al_limite_double32 (c : Ciclo)
    (hc : c.lettura = campione_al_limite) :
    (leggi_arrotondato Real.sqrt binary32 binary32 c
        (stato_iniziale : Stato ℝ)).magnitudoAccelerazione = 3 ∧
      vibrazione_arrotondata Real.sqrt binary32 binary32 c (stato_iniziale : Stato ℝ) = 2 := by
  have hX : binary32 (binary32 (binary32 (((-32768 : Int) : ℝ) / 16384) - 0)) = -2 := by
    rw [show ((-32768 : Int) : ℝ) / 16384 = -2 by norm_num, binary32_meno_due, sub_zero,
      binary32_meno_due, binary32_meno_due]
  have hY : binary32 (binary32 (binary32 (((-32767 : Int) : ℝ) / 16384) - 0)) =
      -32767 / 16384 := by
    rw [show ((-32767 : Int) : ℝ) / 16384 = -32767 / 16384 by norm_num, binary32_meno_y,
      sub_zero, binary32_meno_y, binary32_meno_y]
  have hZ : binary32 (binary32 (binary32 (((16386 : Int) : ℝ) / 16384) - 0)) =
      8193 / 8192 := by
    rw [show ((16386 : Int) : ℝ) / 16384 = 8193 / 8192 by norm_num, binary32_z,
      sub_zero, binary32_z, binary32_z]
  have hS : binary32 (binary32 (binary32 ((-2 : ℝ) ^ 2) + binary32 ((-32767 / 16384 : ℝ) ^ 2)) +
      binary32 ((8193 / 8192 : ℝ) ^ 2)) = 9 := by
    rw [show ((-2 : ℝ) ^ 2) = 4 by norm_num,
      show ((-32767 / 16384 : ℝ) ^ 2) = 1073676289 / 268435456 by norm_num,
      show ((8193 / 8192 : ℝ) ^ 2) = 67125249 / 67108864 by norm_num,
      binary32_quattro, binary32_y_quadro, binary32_z_quadro,
      show (4 + 16383 / 4096 : ℝ) = 32767 / 4096 by norm_num,
      binary32_somma_xy,
      show (32767 / 4096 + 4097 / 4096 : ℝ) = 9 by norm_num,
      binary32_nove]
  have hM : binary32 (binary32 (Real.sqrt 9)) = 3 := by
    rw [show (9 : ℝ) = 3 ^ 2 by norm_num, Real.sqrt_sq (by norm_num), binary32_tre,
      binary32_tre]
  have hV : binary32 |binary32 ((3 : ℝ) - 1)| = 2 := by
    rw [show ((3 : ℝ) - 1) = 2 by norm_num, binary32_due, abs_of_pos (by norm_num),
      binary32_due]
  have hm : (leggi_arrotondato Real.sqrt binary32 binary32 c
      (stato_iniziale : Stato ℝ)).magnitudoAccelerazione = 3 := by
    simp only [leggi_arrotondato, stato_iniziale, hc, campione_al_limite]
    rw [hX, hY, hZ, hS, hM]
  refine ⟨hm, ?_⟩
  rw [vibrazione_arrotondata, hm, hV]

/-- At the sample just above 3 g the threshold test changes nothing. -/
theorem controlla_soglia_al_limite (a_double : ℝ → ℝ)
    (hv : vibrazione_arrotondata Real.sqrt a_double binary32
      (ciclo_istantaneo campione_al_limite 1200) (stato_iniziale : Stato ℝ) = 2) :
    controlla_soglia (ciclo_istantaneo campione_al_limite 1200)
        (vibrazione_arrotondata Real.sqrt a_double binary32
          (ciclo_istantaneo campione_al_limite 1200) (stato_iniziale : Stato ℝ))
        (leggi_arrotondato Real.sqrt a_double binary32
          (ciclo_istantaneo campione_al_limite 1200) (stato_iniziale : Stato ℝ)) =
      leggi_arrotondato Real.sqrt a_double binary32
        (ciclo_istantaneo campione_al_limite 1200) (stato_iniziale : Stato ℝ) := by
  rw [hv]
  unfold controlla_soglia
  rw [if_neg]
  show ¬ ((2 : ℝ) > 2)
  exact lt_irrefl _

end MPU6050
